import Mathlib

/-!
# Verification of the scyllapy value marshaller and session core

This file is a shallow embedding, in Lean 4, of the parts of the scyllapy
source that the specification's testable properties talk about:

* the typed value envelope `ScyllaPyCQLDTO` and its wire serialization
  (`src/utils.rs`, `impl Value for ScyllaPyCQLDTO`),
* the encoder `py_to_value` (`src/utils.rs`),
* the decoder `cql_to_py` (`src/utils.rs`),
* parameter parsing `parse_python_query_params` (`src/utils.rs`),
* the session lifecycle and execution dispatch (`src/scylla_cls.rs`),
* statements and request parameters (`src/queries.rs`),
* batches (`src/batches.rs`).

Python runtime values are modelled by the inductive type `PyValue`; machine
integers are modelled by `Int` with explicit range checks where the Rust
code performs checked extraction (`item.extract::<i8>()` and friends), and
by explicit `% 2 ^ w` arithmetic where the Rust code wraps.  Floating point
payloads are carried opaquely (no claim in scope quantifies over float
arithmetic).  Fallible code returns `Except ScyllaPyError`.
-/

namespace Scyllapy

/-- Errors of `src/exceptions/rust_err.rs` (`ScyllaPyError`), restricted to the
constructors reachable from the embedded code paths.  Message strings are kept
verbatim from the source. -/
inductive ScyllaPyError where
  /-- `ScyllaPyError::SessionError` -/
  | sessionError (msg : String)
  /-- `ScyllaPyError::BindingError` -/
  | bindingError (msg : String)
  /-- `ScyllaPyError::PyError`: a pyo3 error, e.g. an integer extraction
  overflow (`item.extract::<i8>()` on an out-of-range value). -/
  | pyError (msg : String)
  /-- `ScyllaPyError::SSLError`: certificate material failed to parse. -/
  | sslError
  /-- `ScyllaPyError::ScyllaSessionError`: the driver failed to build a new
  session (connection failure). -/
  | scyllaSessionError (msg : String)
  /-- `ScyllaPyError::ValueDowncastError(column, expected)` -/
  | valueDowncastError (col : String) (expected : String)
  /-- `ScyllaPyError::UDTDowncastError(udt, column, reason)` -/
  | udtDowncastError (udt : String) (col : String) (reason : String)
  /-- `ScyllaPyError::ScyllaValueError`: the driver failed to build the
  serialized parameter list (`SerializeValuesError`). -/
  | scyllaValueError (msg : String)
  /-- A wire-level deserialization failure inside the external driver
  (surfaced by the driver as a query error; the exact constructor is owned
  by the driver and irrelevant to the claims). -/
  | wireError (msg : String)
  deriving DecidableEq, Repr

abbrev ScyllaPyResult (α : Type) := Except ScyllaPyError α

/-- `scylla::frame::response::result::ColumnType` (external driver, consumed):
the declared wire type of a column, recursively composable. -/
inductive ColumnType where
  | ascii
  | boolean
  | blob
  | counter
  | date
  | decimal
  | double
  | duration
  | float
  | int
  | bigint
  | text
  | timestamp
  | inet
  | list (elem : ColumnType)
  | map (key : ColumnType) (value : ColumnType)
  | set (elem : ColumnType)
  | smallint
  | tinyint
  | time
  | timeuuid
  | tuple (elems : List ColumnType)
  | uuid
  | userDefinedType (typeName : String) (keyspace : String)
      (fieldTypes : List (String × ColumnType))
  | varint
  | custom (name : String)

/-- `scylla::frame::response::result::ColumnSpec`: a (name, type) pair. -/
structure ColumnSpec where
  name : String
  typ : ColumnType

/-- `scylla::frame::response::result::CqlValue` (external driver, consumed):
a decoded protocol-level value.  Numeric payloads are `Int` (the driver uses
i8/i16/i32/i64; the claims' hypotheses carry the range constraints), float
payloads are opaque bit patterns, temporal payloads use the driver's native
units (`date`: days since epoch as a signed offset, `time`: nanoseconds since
midnight, `timestamp`: milliseconds since epoch, `duration`: months/days/
nanoseconds).  `CqlValue::Empty` is not modelled (no claim mentions it). -/
inductive CqlValue where
  | ascii (s : String)
  | boolean (b : Bool)
  | blob (bytes : List Nat)
  | counter (value : Int)
  | decimal (unscaled : Int) (scale : Int)
  | date (daysSinceEpoch : Int)
  | double (bits : Nat)
  | duration (months : Int) (days : Int) (nanoseconds : Int)
  | float (bits : Nat)
  | int (value : Int)
  | bigint (value : Int)
  | text (s : String)
  | timestamp (millis : Int)
  | inet (isV6 : Bool) (addr : Nat)
  | list (elems : List CqlValue)
  | map (pairs : List (CqlValue × CqlValue))
  | set (elems : List CqlValue)
  | smallint (value : Int)
  | tinyint (value : Int)
  | time (nanosSinceMidnight : Int)
  | timeuuid (value : Nat)
  | tuple (elems : List (Option CqlValue))
  | uuid (value : Nat)
  | userDefinedType (keyspace : String) (typeName : String)
      (fields : List (String × Option CqlValue))
  | varint (value : Int)

/-- A Python runtime value, as the scyllapy marshaller observes it through
pyo3 type probes.  Each constructor corresponds to one probe of
`py_to_value` / one production of `cql_to_py`:

* `pyNone`, `pyStr`, `pyUnset` (the `scyllapy.extra_types.Unset` sentinel),
  `pyBool`, `pyInt`, `pyFloat` (payload: opaque f64 bit pattern),
* the width wrapper classes of `src/extra_types.rs` (`SmallInt`, `TinyInt`,
  `BigInt`, `Double`, `Counter`),
* `pyBytes`,
* `pyUdtDump vals`: an object exposing `__dump_udt__`, returning `vals`,
* `pyUuid` (an `uuid.UUID`; the canonical-string detour through
  `str()` / `parse_str` / `simple()` is value-preserving and modelled as the
  identity on the 128-bit payload),
* `pyInet` (an `ipaddress.IPv4Address`/`IPv6Address`; same remark),
* `pyDate` (a `datetime.date`, as signed days since the Unix epoch; the
  isoformat detour is value-preserving),
* `pyTime` (a `datetime.time`, as microseconds since midnight; `datetime.time`
  has microsecond resolution, and reconstructing it from its
  hour/minute/second/microsecond components is the identity),
* `pyDecimal` (a `decimal.Decimal`, as an unscaled integer and a scale; the
  string detours through `str()` / scientific notation are value-preserving),
* `pyDatetime` (a `datetime.datetime`, as microseconds since epoch;
  `datetime.timestamp()` is idealized as exact rational arithmetic —
  the claims below only quantify over values where the floating-point
  detour of the real code agrees with this idealization),
* `pyRelativedelta` (a `dateutil.relativedelta` in normalized form; the code
  reads only its `months`, `days`, `seconds` and `microseconds` attributes,
  so only those are modelled),
* `pyList` / `pyTuple` / `pySet` / `pyDict` collections,
* `pyOther`: any other Python type, carrying its type name. -/
inductive PyValue where
  | pyNone
  | pyStr (s : String)
  | pyUnset
  | pyBool (b : Bool)
  | pyInt (n : Int)
  | pyFloat (bits : Nat)
  | pySmallIntWrapper (n : Int)
  | pyTinyIntWrapper (n : Int)
  | pyBigIntWrapper (n : Int)
  | pyDoubleWrapper (bits : Nat)
  | pyCounterWrapper (n : Int)
  | pyBytes (bytes : List Nat)
  | pyUdtDump (vals : List PyValue)
  | pyUuid (value : Nat)
  | pyInet (isV6 : Bool) (addr : Nat)
  | pyDate (daysSinceEpoch : Int)
  | pyTime (microsSinceMidnight : Int)
  | pyDecimal (unscaled : Int) (scale : Int)
  | pyDatetime (microsSinceEpoch : Int)
  | pyRelativedelta (months days seconds microseconds : Int)
  | pyList (elems : List PyValue)
  | pyTuple (elems : List PyValue)
  | pySet (elems : List PyValue)
  | pyDict (pairs : List (PyValue × PyValue))
  | pyOther (typeName : String)

/-- `ScyllaPyCQLDTO` (`src/utils.rs`): the typed value envelope the encoder
produces and the serializer consumes.  Payload conventions follow `CqlValue`
above; `udt` holds pre-serialized bytes, exactly as in the source. -/
inductive ScyllaPyCQLDTO where
  | null
  | unset
  | string (s : String)
  | bigInt (n : Int)
  | int (n : Int)
  | smallInt (n : Int)
  | tinyInt (n : Int)
  | counter (n : Int)
  | bool (b : Bool)
  | double (bits : Nat)
  | decimal (unscaled : Int) (scale : Int)
  | duration (months : Int) (days : Int) (nanoseconds : Int)
  | float (bits : Nat)
  | bytes (b : List Nat)
  | date (daysSinceEpoch : Int)
  | time (microsSinceMidnight : Int)
  | timestamp (millis : Int)
  | uuid (value : Nat)
  | inet (isV6 : Bool) (addr : Nat)
  | list (elems : List ScyllaPyCQLDTO)
  | map (pairs : List (ScyllaPyCQLDTO × ScyllaPyCQLDTO))
  | udt (serialized : List Nat)

/-- Constructor discriminant of a `ScyllaPyCQLDTO`, used to state that two
bindings carry distinct tags. -/
def ScyllaPyCQLDTO.tag : ScyllaPyCQLDTO → Nat
  | .null => 0
  | .unset => 1
  | .string _ => 2
  | .bigInt _ => 3
  | .int _ => 4
  | .smallInt _ => 5
  | .tinyInt _ => 6
  | .counter _ => 7
  | .bool _ => 8
  | .double _ => 9
  | .decimal _ _ => 10
  | .duration _ _ _ => 11
  | .float _ => 12
  | .bytes _ => 13
  | .date _ => 14
  | .time _ => 15
  | .timestamp _ => 16
  | .uuid _ => 17
  | .inet _ _ => 18
  | .list _ => 19
  | .map _ => 20
  | .udt _ => 21

/-! ## Byte-level helpers for the wire serialization

`ScyllaPyCQLDTO::serialize` (`src/utils.rs`, lines 114-158) delegates each
variant to the external driver's `Value` implementation for the corresponding
Rust type.  Those implementations are modelled from the spec here
(wire value model, spec section 2; width table, spec section 8): every value
is written as a 4-byte big-endian signed length followed by a big-endian
payload (-1 encodes null, -2 encodes unset); any length that does not fit in
an `i32` is a `ValueTooBig` serialization error. -/

/-- `k` big-endian bytes of `n % 2 ^ (8 * k)`. -/
def beBytes (k : Nat) (n : Nat) : List Nat :=
  (List.range k).map (fun i => n / 2 ^ (8 * (k - 1 - i)) % 256)

/-- `k` big-endian two's-complement bytes of the signed value `n`. -/
def beBytesI (k : Nat) (n : Int) : List Nat :=
  beBytes k (n % (2 ^ (8 * k) : Nat)).toNat

theorem beBytes_length (k n : Nat) : (beBytes k n).length = k := by
  simp [beBytes]

theorem beBytesI_length (k : Nat) (n : Int) : (beBytesI k n).length = k := by
  simp [beBytesI, beBytes_length]

/-- Largest value of a Rust `i32`; lengths beyond it fail `try_into::<i32>()`. -/
def i32Max : Nat := 2147483647

/-- UTF-8 encoding of one character (`String.utf8EncodeChar`, transcribed
into `Nat` arithmetic: the masks `&&& 31`/`&&& 63`/... become `%`, the tag
bits `||| 192`/... become `+`). -/
def utf8EncodeCharNat (c : Char) : List Nat :=
  let v := c.toNat
  if v ≤ 127 then [v]
  else if v ≤ 2047 then [v / 64 % 32 + 192, v % 64 + 128]
  else if v ≤ 65535 then
    [v / 4096 % 16 + 224, v / 64 % 64 + 128, v % 64 + 128]
  else
    [v / 262144 % 8 + 240, v / 4096 % 64 + 128, v / 64 % 64 + 128,
      v % 64 + 128]

/-- UTF-8 bytes of a string (Rust `str::as_bytes`). -/
def utf8Bytes (s : String) : List Nat :=
  s.data.flatMap utf8EncodeCharNat

/-- Zigzag mapping of a signed 64-bit value to an unsigned one, used by the
CQL variable-length integer encoding inside `CqlDuration::serialize`. -/
def zigzag (n : Int) : Nat :=
  if 0 ≤ n then (2 * n).toNat else (-2 * n - 1).toNat

/-- Total byte count of the CQL vint encoding of `u`: the smallest
`t ∈ [1, 8]` with `u < 2 ^ (7 * t)`, and `9` beyond. -/
def vintLen (u : Nat) : Nat :=
  if u < 2 ^ 7 then 1
  else if u < 2 ^ 14 then 2
  else if u < 2 ^ 21 then 3
  else if u < 2 ^ 28 then 4
  else if u < 2 ^ 35 then 5
  else if u < 2 ^ 42 then 6
  else if u < 2 ^ 49 then 7
  else if u < 2 ^ 56 then 8
  else 9

/-- CQL vint encoding: the first byte carries a unary count of the extra
bytes followed by the top bits of the value; the remaining bytes are
big-endian. -/
def vintBytes (u : Nat) : List Nat :=
  let t := vintLen u
  if t = 9 then 255 :: beBytes 8 u
  else (2 ^ 8 - 2 ^ (9 - t) + u / 2 ^ (8 * (t - 1))) :: beBytes (t - 1) u

/-- Byte width of the minimal big-endian two's-complement encoding of `n`
(the representation used for CQL `varint` / `decimal` payloads). -/
def bigintByteLen (n : Int) : Nat :=
  if 0 ≤ n then (Nat.log2 n.toNat + 9) / 8
  else (Nat.log2 (-n - 1).toNat + 9) / 8

/-- Minimal big-endian two's-complement encoding of `n`. -/
def bigintBytes (n : Int) : List Nat :=
  beBytesI (bigintByteLen n) n

mutual

/-- `impl Value for ScyllaPyCQLDTO` (`src/utils.rs`, lines 114-158): wire
bytes of one binding, length prefix included.  Each arm matches the driver
`Value` implementation the source delegates that variant to; `udt` appends
its pre-serialized buffer verbatim (`buf.extend(udt)`).  `map` rebuilds a
`HashMap` before serializing; Python dict keys are unique, so the rebuild
collapses nothing, and the model keeps the given pair order (the real hash
iteration order is unspecified — no claim depends on it).  The error value
is the driver's `ValueTooBig`. -/
def serializeDTO : ScyllaPyCQLDTO → Except Unit (List Nat)
  | .null => .ok (beBytesI 4 (-1))
  | .unset => .ok (beBytesI 4 (-2))
  | .string s =>
      let b := utf8Bytes s
      if b.length ≤ i32Max then .ok (beBytes 4 b.length ++ b) else .error ()
  | .bigInt n => .ok (beBytes 4 8 ++ beBytesI 8 n)
  | .int n => .ok (beBytes 4 4 ++ beBytesI 4 n)
  | .smallInt n => .ok (beBytes 4 2 ++ beBytesI 2 n)
  | .tinyInt n => .ok (beBytes 4 1 ++ beBytesI 1 n)
  | .counter n => .ok (beBytes 4 8 ++ beBytesI 8 n)
  | .bool b => .ok (beBytes 4 1 ++ [if b then 1 else 0])
  | .double bits => .ok (beBytes 4 8 ++ beBytes 8 bits)
  | .float bits => .ok (beBytes 4 4 ++ beBytes 4 bits)
  | .decimal unscaled scale =>
      let b := bigintBytes unscaled
      if 4 + b.length ≤ i32Max then
        .ok (beBytes 4 (4 + b.length) ++ beBytesI 4 scale ++ b)
      else .error ()
  | .duration months days nanoseconds =>
      let b := vintBytes (zigzag months) ++ vintBytes (zigzag days) ++
        vintBytes (zigzag nanoseconds)
      .ok (beBytes 4 b.length ++ b)
  | .bytes b =>
      if b.length ≤ i32Max then .ok (beBytes 4 b.length ++ b) else .error ()
  | .date d => .ok (beBytes 4 4 ++ beBytesI 4 (d + 2 ^ 31))
  | .time micros => .ok (beBytes 4 8 ++ beBytesI 8 (micros * 1000))
  | .timestamp ms => .ok (beBytes 4 8 ++ beBytesI 8 ms)
  | .uuid u => .ok (beBytes 4 16 ++ beBytes 16 u)
  | .inet isV6 addr =>
      if isV6 then .ok (beBytes 4 16 ++ beBytes 16 addr)
      else .ok (beBytes 4 4 ++ beBytes 4 addr)
  | .list elems => do
      let body ← serializeSeq elems
      if elems.length ≤ i32Max ∧ 4 + body.length ≤ i32Max then
        .ok (beBytes 4 (4 + body.length) ++ beBytes 4 elems.length ++ body)
      else .error ()
  | .map pairs => do
      let body ← serializePairs pairs
      if pairs.length ≤ i32Max ∧ 4 + body.length ≤ i32Max then
        .ok (beBytes 4 (4 + body.length) ++ beBytes 4 pairs.length ++ body)
      else .error ()
  | .udt serialized => .ok serialized

/-- Concatenated serialization of a sequence of bindings (driver `Vec<T>`
element loop). -/
def serializeSeq : List ScyllaPyCQLDTO → Except Unit (List Nat)
  | [] => .ok []
  | x :: xs => do
      let b ← serializeDTO x
      let rest ← serializeSeq xs
      .ok (b ++ rest)

/-- Concatenated serialization of key/value pairs (driver `HashMap<K, V>`
entry loop: key bytes then value bytes). -/
def serializePairs : List (ScyllaPyCQLDTO × ScyllaPyCQLDTO) →
    Except Unit (List Nat)
  | [] => .ok []
  | (k, v) :: ps => do
      let bk ← serializeDTO k
      let bv ← serializeDTO v
      let rest ← serializePairs ps
      .ok (bk ++ bv ++ rest)

end

/-- Method-style alias keeping the source's name (`ScyllaPyCQLDTO::serialize`). -/
def ScyllaPyCQLDTO.serialize (dto : ScyllaPyCQLDTO) : Except Unit (List Nat) :=
  serializeDTO dto

/-! ## Encoder: `py_to_value` (`src/utils.rs`, lines 172-324)

The dispatch order matches the source's probe chain exactly; each arm of the
Lean match corresponds to one `is_instance_of` / type-name probe.  Integer
extraction (`item.extract::<iN>()`) is modelled by an explicit range check
that raises `pyError` on overflow (the exact pyo3 message text is not
load-bearing for any claim). -/

/-- Wrap a signed value into the Rust `i64` range (release-mode wrapping
arithmetic). -/
def wrapI64 (n : Int) : Int := (n + 2 ^ 63) % (2 ^ 64 : Nat) - 2 ^ 63

/-- In-range test for an `N`-bit signed extraction. -/
def fitsSigned (bits : Nat) (n : Int) : Prop :=
  -(2 ^ (bits - 1) : Nat) ≤ n ∧ n < (2 ^ (bits - 1) : Nat)

instance (bits : Nat) (n : Int) : Decidable (fitsSigned bits n) := by
  unfold fitsSigned; infer_instance

/-- pyo3 integer-extraction overflow, `ScyllaPyError::PyError`. -/
def overflowErr : ScyllaPyError :=
  .pyError "OverflowError: Python int too large to convert to C integer"

mutual

/-- `py_to_value` (`src/utils.rs`, lines 172-324): convert one Python value,
optionally guided by a declared column type, into a `ScyllaPyCQLDTO`.

Noteworthy renditions, in source order:

* the `PyInt` arm narrows by `column_type` exactly as the source `match`
  does — every declared type other than `TinyInt`/`SmallInt`/`BigInt`/
  `Counter` (composites included) falls into the `Some(_) | None` arm and
  extracts a 32-bit `Int`;
* the `__dump_udt__` arm serializes each field via `py_to_value(val, None)`
  into a buffer opened by four placeholder bytes, then checks
  `buf.len().try_into::<i32>()` and patches the placeholder with
  `buf_len - 4` big-endian;
* the `datetime` arm multiplies `timestamp()` by 1000 and truncates toward
  zero (the f64 detour is idealized as exact; the `as u32` cast and the
  `u32` multiplication wrap modulo `2 ^ 32` as in release-mode Rust, and
  chrono's far-range cutoff on seconds is not modelled);
* the `relativedelta` arm computes
  `microseconds * 1_000 + seconds * 1_000_000` in `i64` arithmetic —
  transcribed verbatim, conversion factors included;
* the list/tuple/set and dict arms recurse with `column_type` passed through
  unchanged (source lines 294-317). -/
def py_to_value : PyValue → Option ColumnType → ScyllaPyResult ScyllaPyCQLDTO
  | .pyNone, _ => .ok .null
  | .pyStr s, _ => .ok (.string s)
  | .pyUnset, _ => .ok .unset
  | .pyBool b, _ => .ok (.bool b)
  | .pyInt n, columnType =>
      match columnType with
      | some .tinyint =>
          if fitsSigned 8 n then .ok (.tinyInt n) else .error overflowErr
      | some .smallint =>
          if fitsSigned 16 n then .ok (.smallInt n) else .error overflowErr
      | some .bigint =>
          if fitsSigned 64 n then .ok (.bigInt n) else .error overflowErr
      | some .counter =>
          if fitsSigned 64 n then .ok (.counter n) else .error overflowErr
      | _ =>
          if fitsSigned 32 n then .ok (.int n) else .error overflowErr
  | .pyFloat bits, columnType =>
      match columnType with
      | some .double => .ok (.double bits)
      | _ => .ok (.float bits)
        -- `item.extract::<f32>()`: the f64-to-f32 narrowing is a
        -- floating-point operation outside this embedding; the payload is
        -- carried opaquely and no claim quantifies over this arm.
  | .pySmallIntWrapper n, _ => .ok (.smallInt n)
  | .pyTinyIntWrapper n, _ => .ok (.tinyInt n)
  | .pyBigIntWrapper n, _ => .ok (.bigInt n)
  | .pyDoubleWrapper bits, _ => .ok (.double bits)
  | .pyCounterWrapper n, _ => .ok (.counter n)
  | .pyBytes b, _ => .ok (.bytes b)
  | .pyUdtDump vals, _ => do
      let dtos ← pyToValueSeq vals none
      let body ←
        match serializeSeq dtos with
        | .ok b => .ok b
        | .error _ =>
            .error (.bindingError "Cannot serialize UDT field because of ValueTooBig")
      if 4 + body.length ≤ i32Max then
        .ok (.udt (beBytesI 4 (((4 + body.length : Nat) : Int) - 4) ++ body))
      else .error (.bindingError "Cannot serialize. UDT value is too big.")
  | .pyUuid u, _ => .ok (.uuid u)
  | .pyInet isV6 a, _ => .ok (.inet isV6 a)
  | .pyDate d, _ => .ok (.date d)
  | .pyTime t, _ => .ok (.time t)
  | .pyDecimal unscaled scale, _ => .ok (.decimal unscaled scale)
  | .pyDatetime micros, _ =>
      let milliseconds := Int.tdiv micros 1000
      let seconds := Int.tdiv milliseconds 1000
      let nsecs : Nat :=
        (Int.tmod milliseconds 1000 % (2 ^ 32 : Nat)).toNat * 1000000 % 2 ^ 32
      if nsecs < 2000000000 then
        .ok (.timestamp (seconds * 1000 + (nsecs / 1000000 : Nat)))
      else .error (.bindingError "Cannot convert datetime to timestamp.")
  | .pyRelativedelta months days seconds microseconds, _ =>
      if fitsSigned 32 months ∧ fitsSigned 32 days ∧
          fitsSigned 64 microseconds ∧ fitsSigned 64 seconds then
        .ok (.duration months days
          (wrapI64 (wrapI64 (microseconds * 1000) + wrapI64 (seconds * 1000000))))
      else .error overflowErr
  | .pyList elems, columnType => do
      .ok (.list (← pyToValueSeq elems columnType))
  | .pyTuple elems, columnType => do
      .ok (.list (← pyToValueSeq elems columnType))
  | .pySet elems, columnType => do
      .ok (.list (← pyToValueSeq elems columnType))
  | .pyDict pairs, columnType => do
      .ok (.map (← pyToValuePairs pairs columnType))
  | .pyOther typeName, _ =>
      .error (.bindingError
        ("Unsupported type for parameter binding: \"" ++ typeName ++ "\""))

/-- Elementwise encoding of a Python sequence (the `for inner in item.iter()`
loop); `columnType` is whatever the caller passed. -/
def pyToValueSeq : List PyValue → Option ColumnType →
    ScyllaPyResult (List ScyllaPyCQLDTO)
  | [], _ => .ok []
  | x :: xs, columnType => do
      let d ← py_to_value x columnType
      let rest ← pyToValueSeq xs columnType
      .ok (d :: rest)

/-- Pairwise encoding of a Python dict (the `dict.items()` loop); both the
key and the value are encoded against the same `columnType` the caller
passed. -/
def pyToValuePairs : List (PyValue × PyValue) → Option ColumnType →
    ScyllaPyResult (List (ScyllaPyCQLDTO × ScyllaPyCQLDTO))
  | [], _ => .ok []
  | (k, v) :: ps, columnType => do
      let dk ← py_to_value k columnType
      let dv ← py_to_value v columnType
      let rest ← pyToValuePairs ps columnType
      .ok ((dk, dv) :: rest)

end

/-! ## Decoder: `cql_to_py` (`src/utils.rs`, lines 342-644)

The narrow accessors of the driver's `CqlValue` (`as_ascii`, `as_int`, ...)
return `some` exactly on the matching variant.  String/formatting detours of
the source that are value-preserving (uuid canonical string, date isoformat,
decimal scientific notation, time component split/rebuild, timestamp
fromtimestamp) are modelled as the identity on the carried payload. -/

def CqlValue.as_ascii : CqlValue → Option String
  | .ascii s => some s
  | _ => none

def CqlValue.as_boolean : CqlValue → Option Bool
  | .boolean b => some b
  | _ => none

def CqlValue.as_blob : CqlValue → Option (List Nat)
  | .blob b => some b
  | _ => none

def CqlValue.as_double : CqlValue → Option Nat
  | .double bits => some bits
  | _ => none

def CqlValue.as_float : CqlValue → Option Nat
  | .float bits => some bits
  | _ => none

def CqlValue.as_int : CqlValue → Option Int
  | .int n => some n
  | _ => none

def CqlValue.as_bigint : CqlValue → Option Int
  | .bigint n => some n
  | _ => none

def CqlValue.as_smallint : CqlValue → Option Int
  | .smallint n => some n
  | _ => none

def CqlValue.as_tinyint : CqlValue → Option Int
  | .tinyint n => some n
  | _ => none

def CqlValue.as_text : CqlValue → Option String
  | .text s => some s
  | _ => none

def CqlValue.as_counter : CqlValue → Option Int
  | .counter n => some n
  | _ => none

def CqlValue.as_uuid : CqlValue → Option Nat
  | .uuid u => some u
  | _ => none

def CqlValue.as_timeuuid : CqlValue → Option Nat
  | .timeuuid u => some u
  | _ => none

def CqlValue.as_cql_duration : CqlValue → Option (Int × Int × Int)
  | .duration m d ns => some (m, d, ns)
  | _ => none

def CqlValue.as_cql_timestamp : CqlValue → Option Int
  | .timestamp ms => some ms
  | _ => none

def CqlValue.as_inet : CqlValue → Option (Bool × Nat)
  | .inet isV6 a => some (isV6, a)
  | _ => none

/-- Smallest / largest day offsets representable by the `time` crate's
`Date` (years -9999 to 9999), which bounds both `CqlValue::as_date`
conversion and the `DATE_FORMAT` formatting used on decode. -/
def timeCrateDateMin : Int := -4371587

def timeCrateDateMax : Int := 2932896

/-- `CqlValue::as_date`: converts the wire day offset to a `time::Date`,
failing outside that crate's representable range. -/
def CqlValue.as_date : CqlValue → Option Int
  | .date d => if timeCrateDateMin ≤ d ∧ d ≤ timeCrateDateMax then some d else none
  | _ => none

/-- `CqlValue::as_time`: converts nanoseconds-since-midnight to a
`time::Time`, failing outside one day. -/
def CqlValue.as_time : CqlValue → Option Int
  | .time ns => if 0 ≤ ns ∧ ns < 86400000000000 then some ns else none
  | _ => none

def CqlValue.as_list : CqlValue → Option (List CqlValue)
  | .list elems => some elems
  | _ => none

def CqlValue.as_set : CqlValue → Option (List CqlValue)
  | .set elems => some elems
  | _ => none

def CqlValue.as_map : CqlValue → Option (List (CqlValue × CqlValue))
  | .map pairs => some pairs
  | _ => none

def CqlValue.as_udt : CqlValue → Option (List (String × Option CqlValue))
  | .userDefinedType _ _ fields => some fields
  | _ => none

/-- The declared-field lookup of the UDT decode branch: the source collects
`field_types` into a `HashMap` by insertion (`src/utils.rs`, lines 580-586),
so for a duplicated field name the last entry wins. -/
def fieldLookup (name : String) : List (String × ColumnType) → Option ColumnType
  | [] => none
  | (k, t) :: rest =>
      match fieldLookup name rest with
      | some r => some r
      | none => if k = name then some t else none

theorem fieldLookup_sizeOf_lt (name : String)
    (fields : List (String × ColumnType)) (ty : ColumnType)
    (h : fieldLookup name fields = some ty) : sizeOf ty < sizeOf fields := by
  induction fields with
  | nil => simp [fieldLookup] at h
  | cons p rest ih =>
      obtain ⟨k, t⟩ := p
      rw [fieldLookup] at h
      have hsz : sizeOf ((k, t) :: rest) = 1 + (1 + sizeOf k + sizeOf t) + sizeOf rest := by
        simp only [List.cons.sizeOf_spec, Prod.mk.sizeOf_spec]
      rcases hrec : fieldLookup name rest with _ | r <;> rw [hrec] at h
      · by_cases hk : k = name
        · rw [if_pos hk] at h
          injection h with h2
          subst h2
          omega
        · rw [if_neg hk] at h
          exact absurd h (by simp)
      · injection h with h2
        subst h2
        have := ih hrec
        omega

theorem as_list_sizeOf_lt {v : CqlValue} {elems : List CqlValue}
    (h : v.as_list = some elems) : sizeOf elems < sizeOf v := by
  cases v <;> simp [CqlValue.as_list] at h
  subst h
  simp

theorem as_set_sizeOf_lt {v : CqlValue} {elems : List CqlValue}
    (h : v.as_set = some elems) : sizeOf elems < sizeOf v := by
  cases v <;> simp [CqlValue.as_set] at h
  subst h
  simp

theorem as_map_sizeOf_lt {v : CqlValue} {pairs : List (CqlValue × CqlValue)}
    (h : v.as_map = some pairs) : sizeOf pairs < sizeOf v := by
  cases v <;> simp [CqlValue.as_map] at h
  subst h
  simp

theorem as_udt_sizeOf_lt {v : CqlValue}
    {fields : List (String × Option CqlValue)}
    (h : v.as_udt = some fields) : sizeOf fields < sizeOf v := by
  cases v <;> simp [CqlValue.as_udt] at h
  subst h
  simp only [CqlValue.userDefinedType.sizeOf_spec]
  omega

theorem list_sizeOf_pos {α : Type} [SizeOf α] (l : List α) : 0 < sizeOf l := by
  cases l
  · simp
  · simp only [List.cons.sizeOf_spec]
    omega

theorem columnType_sizeOf_pos (t : ColumnType) : 0 < sizeOf t := by
  cases t <;> simp_arith

/-- The `relativedelta(months=…, days=…, microseconds=…)` constructor call of
the duration decode branch.  `relativedelta` normalizes an out-of-range
microsecond argument into its seconds component, truncating toward zero
(`_fix`); the further carry from seconds into minutes is not modelled — no
claim reaches it (every claim below keeps the microsecond argument under one
minute's worth). -/
def relativedeltaFromKwargs (months days micros : Int) : PyValue :=
  .pyRelativedelta months days (Int.tdiv micros 1000000) (Int.tmod micros 1000000)

mutual

/-- `cql_to_py` (`src/utils.rs`, lines 342-644): convert a decoded wire value,
given its declared `ColumnType` and the column name used in diagnostics, to a
Python value.  A missing wire value (`None`) decodes to Python `None` before
the type dispatch.  Error strings are verbatim from the source. -/
def cql_to_py (colName : String) :
    ColumnType → Option CqlValue → ScyllaPyResult PyValue
  | _, none => .ok .pyNone
  | .ascii, some v =>
      match v.as_ascii with
      | some s => .ok (.pyStr s)
      | none => .error (.valueDowncastError colName "ASCII")
  | .boolean, some v =>
      match v.as_boolean with
      | some b => .ok (.pyBool b)
      | none => .error (.valueDowncastError colName "Boolean")
  | .blob, some v =>
      match v.as_blob with
      | some b => .ok (.pyBytes b)
      | none => .error (.valueDowncastError colName "Blob")
  | .double, some v =>
      match v.as_double with
      | some bits => .ok (.pyFloat bits)
      | none => .error (.valueDowncastError colName "Double")
  | .float, some v =>
      -- The f32-to-f64 widening of `val.to_object(py)` is value-preserving;
      -- the payload is carried opaquely.
      match v.as_float with
      | some bits => .ok (.pyFloat bits)
      | none => .error (.valueDowncastError colName "Float")
  | .int, some v =>
      match v.as_int with
      | some n => .ok (.pyInt n)
      | none => .error (.valueDowncastError colName "Int")
  | .bigint, some v =>
      match v.as_bigint with
      | some n => .ok (.pyInt n)
      | none => .error (.valueDowncastError colName "BigInt")
  | .text, some v =>
      match v.as_text with
      | some s => .ok (.pyStr s)
      | none => .error (.valueDowncastError colName "Text")
  | .list elemType, some v =>
      match hlst : v.as_list with
      | some elems => do .ok (.pyList (← cqlToPySeq colName elemType elems))
      | none => .error (.valueDowncastError colName "List")
  | .map keyType valType, some v =>
      match hmp : v.as_map with
      | some pairs => do .ok (.pyDict (← cqlToPyPairs colName keyType valType pairs))
      | none => .error (.valueDowncastError colName "Map")
  | .set elemType, some v =>
      match hst : v.as_set with
      | some elems => do .ok (.pySet (← cqlToPySeq colName elemType elems))
      | none => .error (.valueDowncastError colName "Set")
  | .smallint, some v =>
      match v.as_smallint with
      | some n => .ok (.pyInt n)
      | none => .error (.valueDowncastError colName "SmallInt")
  | .tinyint, some v =>
      match v.as_tinyint with
      | some n => .ok (.pyInt n)
      | none => .error (.valueDowncastError colName "TinyInt")
  | .uuid, some v =>
      match v.as_uuid with
      | some u => .ok (.pyUuid u)
      | none => .error (.valueDowncastError colName "Uuid")
  | .timeuuid, some v =>
      match v.as_timeuuid with
      | some u => .ok (.pyUuid u)
      | none => .error (.valueDowncastError colName "Timeuuid")
  | .duration, some v =>
      match v.as_cql_duration with
      | some (m, d, ns) =>
          -- kwargs: months, days, microseconds = nanoseconds / 1_000
          .ok (relativedeltaFromKwargs m d (Int.tdiv ns 1000))
      | none => .error (.valueDowncastError colName "Duration")
  | .timestamp, some v =>
      match v.as_cql_timestamp with
      | some ms =>
          if ms < 0 then
            .error (.valueDowncastError colName "Timestamp cannot be less than 0")
          else
            -- seconds/nsecs split then `fromtimestamp(millis / 1000)`:
            -- reconstructs the same number of milliseconds; the resulting
            -- datetime carries ms * 1000 microseconds.
            .ok (.pyDatetime (ms * 1000))
      | none => .error (.valueDowncastError colName "Timestamp")
  | .inet, some v =>
      match v.as_inet with
      | some (isV6, a) => .ok (.pyInet isV6 a)
      | none => .error (.valueDowncastError colName "Inet")
  | .date, some v =>
      match v.as_date with
      | some d => .ok (.pyDate d)
      | none => .error (.valueDowncastError colName "Date")
  | .tuple types, some v =>
      match v with
      | .tuple data => do .ok (.pyTuple (← cqlToPyTuple colName types data))
      | _ => .error (.valueDowncastError colName "Tuple")
  | .counter, some v =>
      match v.as_counter with
      | some n => .ok (.pyInt n)
      | none => .error (.valueDowncastError colName "Counter")
  | .time, some v =>
      match v.as_time with
      | some ns =>
          -- hour/minute/second/microsecond kwargs rebuild the same
          -- microsecond-resolution time of day.
          .ok (.pyTime (Int.tdiv ns 1000))
      | none => .error (.valueDowncastError colName "Time")
  | .userDefinedType typeName keyspace fieldTypes, some v =>
      match hudt : v.as_udt with
      | some wireFields => do
          let decoded ← cqlToPyUdt colName (keyspace ++ "." ++ typeName)
            fieldTypes wireFields
          .ok (.pyDict (decoded.map (fun p => (.pyStr p.1, p.2))))
      | none => .error (.valueDowncastError colName "UDT")
  | .decimal, some v =>
      match v with
      | .decimal unscaled scale => .ok (.pyDecimal unscaled scale)
      | _ => .error (.valueDowncastError colName "Decimal")
  | .varint, some v =>
      match v with
      | .varint n => .ok (.pyInt n)
      | _ => .error (.valueDowncastError colName "Varint")
  | .custom _, some _ => .error (.valueDowncastError colName "Unknown")
  termination_by ct cv => sizeOf ct + sizeOf cv
  decreasing_by
    all_goals simp_wf
    all_goals first
      | omega
      | (have hsz := as_list_sizeOf_lt hlst; omega)
      | (have hsz := as_set_sizeOf_lt hst; omega)
      | (have hsz := as_map_sizeOf_lt hmp; omega)
      | (have hsz := as_udt_sizeOf_lt hudt; omega)

/-- Elementwise decode of a wire list/set against the declared element
type. -/
def cqlToPySeq (colName : String) (elemType : ColumnType) :
    List CqlValue → ScyllaPyResult (List PyValue)
  | [] => .ok []
  | x :: xs => do
      let p ← cql_to_py colName elemType (some x)
      let rest ← cqlToPySeq colName elemType xs
      .ok (p :: rest)
  termination_by l => sizeOf elemType + sizeOf l
  decreasing_by
    all_goals simp_wf
    all_goals first
      | omega
      | (have hsz := list_sizeOf_pos xs; omega)

/-- Pairwise decode of a wire map against the declared key/value types. -/
def cqlToPyPairs (colName : String) (keyType valType : ColumnType) :
    List (CqlValue × CqlValue) →
    ScyllaPyResult (List (PyValue × PyValue))
  | [] => .ok []
  | (k, v) :: ps => do
      let pk ← cql_to_py colName keyType (some k)
      let pv ← cql_to_py colName valType (some v)
      let rest ← cqlToPyPairs colName keyType valType ps
      .ok ((pk, pv) :: rest)
  termination_by l => sizeOf keyType + sizeOf valType + sizeOf l
  decreasing_by
    all_goals simp_wf
    all_goals first
      | omega
      | (have hsz := columnType_sizeOf_pos keyType; omega)
      | (have hsz := columnType_sizeOf_pos valType; omega)
      | (have hsz := list_sizeOf_pos ps; omega)

/-- Positional decode of a wire tuple: `types.iter().zip(data)` — the zip
stops at the shorter sequence, exactly as in the source. -/
def cqlToPyTuple (colName : String) :
    List ColumnType → List (Option CqlValue) → ScyllaPyResult (List PyValue)
  | [], _ => .ok []
  | _, [] => .ok []
  | t :: ts, v :: vs => do
      let p ← cql_to_py colName t v
      let rest ← cqlToPyTuple colName ts vs
      .ok (p :: rest)
  termination_by ts vs => sizeOf ts + sizeOf vs

/-- The wire-field loop of the UDT decode branch: each wire (name, value)
pair is decoded against the declared type found in the field map; a wire
field name absent from the declared schema stops the loop with
`UDTDowncastError`. -/
def cqlToPyUdt (colName udtLabel : String)
    (fieldTypes : List (String × ColumnType)) :
    List (String × Option CqlValue) → ScyllaPyResult (List (String × PyValue))
  | [] => .ok []
  | (key, val) :: rest =>
      match hl : fieldLookup key fieldTypes with
      | none =>
          .error (.udtDowncastError udtLabel colName
            ("UDT field " ++ key ++ " is not defined in schema"))
      | some ty => do
          let pv ← cql_to_py colName ty val
          let tail ← cqlToPyUdt colName udtLabel fieldTypes rest
          .ok ((key, pv) :: tail)
  termination_by wire => sizeOf fieldTypes + sizeOf wire
  decreasing_by
    all_goals simp_wf
    all_goals first
      | omega
      | (have hsz := fieldLookup_sizeOf_lt key fieldTypes ty hl; omega)

end

/-! ## The wire bridge between encoder and decoder -/

mutual

/-- Modelled from the spec: the round trip through the external driver that
sits between `ScyllaPyCQLDTO::serialize` and `cql_to_py` — the driver writes
the binding's wire bytes and, on the result path, decodes the bytes of a
column declared with this `ColumnType` back into a `CqlValue` (spec sections
2 and 4.2: the wire value model is external and consumed at its interface).
For a binding whose wire width and kind match the declared type this is the
identity on the carried payload; for a mismatched binding the driver's
deserializer fails (modelled as `wireError`).  A 4-byte `int` binding under a
`varint` column reads back as the same integer (varint payloads are
arbitrary-length two's complement).  UDT bindings (pre-serialized opaque
bytes) and `unset` (not a result value) are not modelled — no claim
quantifies over them. -/
def dtoToWire : ColumnType → ScyllaPyCQLDTO → ScyllaPyResult (Option CqlValue)
  | _, .null => .ok none
  | .boolean, .bool b => .ok (some (.boolean b))
  | .tinyint, .tinyInt n => .ok (some (.tinyint n))
  | .smallint, .smallInt n => .ok (some (.smallint n))
  | .int, .int n => .ok (some (.int n))
  | .bigint, .bigInt n => .ok (some (.bigint n))
  | .counter, .counter n => .ok (some (.counter n))
  | .varint, .tinyInt n => .ok (some (.varint n))
  | .varint, .smallInt n => .ok (some (.varint n))
  | .varint, .int n => .ok (some (.varint n))
  | .varint, .bigInt n => .ok (some (.varint n))
  | .text, .string t => .ok (some (.text t))
  | .ascii, .string t => .ok (some (.ascii t))
  | .blob, .bytes b => .ok (some (.blob b))
  | .uuid, .uuid u => .ok (some (.uuid u))
  | .timeuuid, .uuid u => .ok (some (.timeuuid u))
  | .double, .double bits => .ok (some (.double bits))
  | .float, .float bits => .ok (some (.float bits))
  | .inet, .inet isV6 a => .ok (some (.inet isV6 a))
  | .date, .date d => .ok (some (.date d))
  | .time, .time micros => .ok (some (.time (micros * 1000)))
  | .timestamp, .timestamp ms => .ok (some (.timestamp ms))
  | .decimal, .decimal unscaled scale => .ok (some (.decimal unscaled scale))
  | .duration, .duration m d ns => .ok (some (.duration m d ns))
  | .list elemType, .list elems => do
      .ok (some (.list (← dtoToWireSeq elemType elems)))
  | .set elemType, .list elems => do
      .ok (some (.set (← dtoToWireSeq elemType elems)))
  | .map keyType valType, .map pairs => do
      .ok (some (.map (← dtoToWirePairs keyType valType pairs)))
  | _, _ => .error (.wireError "declared type and bound value do not line up")

/-- Element loop of `dtoToWire` for list/set payloads; a null element inside
a collection is not modelled (the driver rejects it on the result path). -/
def dtoToWireSeq (elemType : ColumnType) :
    List ScyllaPyCQLDTO → ScyllaPyResult (List CqlValue)
  | [] => .ok []
  | x :: xs => do
      let w ← dtoToWire elemType x
      match w with
      | some cv => do
          let rest ← dtoToWireSeq elemType xs
          .ok (cv :: rest)
      | none => .error (.wireError "null collection element")

/-- Entry loop of `dtoToWire` for map payloads. -/
def dtoToWirePairs (keyType valType : ColumnType) :
    List (ScyllaPyCQLDTO × ScyllaPyCQLDTO) →
    ScyllaPyResult (List (CqlValue × CqlValue))
  | [] => .ok []
  | (k, v) :: ps => do
      let wk ← dtoToWire keyType k
      let wv ← dtoToWire valType v
      match wk, wv with
      | some ck, some cv => do
          let rest ← dtoToWirePairs keyType valType ps
          .ok ((ck, cv) :: rest)
      | _, _ => .error (.wireError "null collection element")

end

/-- The full encode-then-decode round trip of one host value `v` against a
column declared with type `t`: encode with `py_to_value` guided by `t`,
cross the wire (`dtoToWire`), decode with `cql_to_py`. -/
def roundTrip (t : ColumnType) (v : PyValue) : ScyllaPyResult PyValue := do
  let dto ← py_to_value v (some t)
  let wire ← dtoToWire t dto
  cql_to_py "col" t wire

/-! ## Serialized parameter lists: `parse_python_query_params`
(`src/utils.rs`, lines 658-708) -/

/-- One entry of the driver's serialized-values buffer: positional or named
binding, with the wire bytes of the bound value. -/
inductive SerializedValue where
  | unnamed (bytes : List Nat)
  | named (name : String) (bytes : List Nat)
  deriving DecidableEq, Repr

/-- The name under which an entry was registered (`none` for positional). -/
def SerializedValue.regName : SerializedValue → Option String
  | .unnamed _ => none
  | .named n _ => some n

/-- The driver's `LegacySerializedValues` accumulator, modelled as the list
of entries added to it.  (`add_value` / `add_named_value` can also fail on
the driver side when named and unnamed values are mixed or the `u16` entry
count overflows; neither is reachable from the embedded call sites and they
are not modelled.) -/
structure SerializedValues where
  values : List SerializedValue
  deriving DecidableEq, Repr

/-- `LegacySerializedValues::add_value`: serialize and append positionally;
a serialization failure surfaces as `ScyllaPyError::ScyllaValueError`. -/
def addValue (vs : SerializedValues) (dto : ScyllaPyCQLDTO) :
    ScyllaPyResult SerializedValues :=
  match serializeDTO dto with
  | .ok b => .ok ⟨vs.values ++ [.unnamed b]⟩
  | .error _ => .error (.scyllaValueError "ValueTooBig")

/-- `LegacySerializedValues::add_named_value`. -/
def addNamedValue (vs : SerializedValues) (name : String)
    (dto : ScyllaPyCQLDTO) : ScyllaPyResult SerializedValues :=
  match serializeDTO dto with
  | .ok b => .ok ⟨vs.values ++ [.named name b]⟩
  | .error _ => .error (.scyllaValueError "ValueTooBig")

/-- The bind-value argument as the source's branch probes classify it:
a list/tuple (positional), a dict (named), or anything else. -/
inductive ParamsInput where
  | positional (vals : List PyValue)
  | named (pairs : List (String × PyValue))
  | other (typeName : String)

/-- Positional loop of `parse_python_query_params`: element `index` is
encoded against `col_spec[index].typ` when available. -/
def addPositional (colSpec : Option (List ColumnSpec)) (index : Nat)
    (vals : List PyValue) (acc : SerializedValues) :
    ScyllaPyResult SerializedValues :=
  match vals with
  | [] => .ok acc
  | v :: rest => do
      let coltype := (colSpec.bind (fun specs => specs.get? index)).map (·.typ)
      let dto ← py_to_value v coltype
      let acc ← addValue acc dto
      addPositional colSpec (index + 1) rest acc

/-- Named loop of `parse_python_query_params`: the declared type is looked
up under the original dict key in the spec map (built like a `HashMap`, last
entry winning), and the value is registered under `name.to_lowercase()`.
The source iterates an extracted `HashMap`, whose order is unspecified; the
model keeps the dict's own order (no claim depends on the order, only on the
name/value registered for each entry). -/
def addNamed (colSpec : Option (List ColumnSpec))
    (pairs : List (String × PyValue)) (acc : SerializedValues) :
    ScyllaPyResult SerializedValues :=
  match pairs with
  | [] => .ok acc
  | (name, value) :: rest => do
      let typesEntry := colSpec.map (fun specs =>
        specs.map (fun sp => (sp.name, sp.typ)))
      let coltype := fieldLookup name (typesEntry.getD [])
      let dto ← py_to_value value coltype
      let acc ← addNamedValue acc name.toLower dto
      addNamed colSpec rest acc

/-- `parse_python_query_params` (`src/utils.rs`, lines 658-708).  The
`scylla_cls.rs` call sites predate the `col_spec` parameter; they are
modelled by passing `none` (same behavior: no declared types).  The typo in
the final error message is the source's. -/
def parse_python_query_params (params : Option ParamsInput)
    (allowDicts : Bool) (colSpec : Option (List ColumnSpec)) :
    ScyllaPyResult SerializedValues :=
  match params with
  | none => .ok ⟨[]⟩
  | some (.positional vals) => addPositional colSpec 0 vals ⟨[]⟩
  | some (.named pairs) =>
      if allowDicts then addNamed colSpec pairs ⟨[]⟩
      else .error (.bindingError "Dicts are not allowed here.")
  | some (.other typeName) =>
      .error (.bindingError
        ("Unsupported type for paramter binding: " ++ typeName ++
          ". Use list, tuple or dict."))

/-! ## Statements and request parameters (`src/queries.rs`,
`src/consistencies.rs`, `src/execution_profiles.rs`) -/

/-- `ScyllaPyConsistency` (`src/consistencies.rs`). -/
inductive ScyllaPyConsistency where
  | ANY | ONE | TWO | THREE | QUORUM | ALL
  | LOCAL_QUORUM | EACH_QUORUM | LOCAL_ONE | SERIAL | LOCAL_SERIAL
  deriving DecidableEq, Repr

/-- `ScyllaPySerialConsistency` (`src/consistencies.rs`). -/
inductive ScyllaPySerialConsistency where
  | SERIAL | LOCAL_SERIAL
  deriving DecidableEq, Repr

/-- `ScyllaPyExecutionProfile` (`src/execution_profiles.rs`): an opaque
bundle of driver defaults; its contents are irrelevant to every claim, so it
is carried as a token. -/
structure ScyllaPyExecutionProfile where
  token : Nat
  deriving DecidableEq, Repr

/-- `ScyllaPyRequestParams` (`src/queries.rs`, lines 11-20); `Default`
derives to all-`None`. -/
structure ScyllaPyRequestParams where
  consistency : Option ScyllaPyConsistency := none
  serial_consistency : Option ScyllaPySerialConsistency := none
  request_timeout : Option Nat := none
  timestamp : Option Int := none
  is_idempotent : Option Bool := none
  tracing : Option Bool := none
  profile : Option ScyllaPyExecutionProfile := none
  deriving DecidableEq, Repr

/-- `ScyllaPyQuery` (`src/queries.rs`, lines 100-106). -/
structure ScyllaPyQuery where
  query : String
  params : ScyllaPyRequestParams
  deriving DecidableEq, Repr

/-- `impl From<&ScyllaPyQuery> for ScyllaPyQuery` (`src/queries.rs`, lines
108-115): clones the query text and resets `params` to
`ScyllaPyRequestParams::default()`. -/
def ScyllaPyQuery.fromRef (value : ScyllaPyQuery) : ScyllaPyQuery :=
  { query := value.query, params := {} }

def ScyllaPyQuery.with_consistency (self : ScyllaPyQuery)
    (consistency : Option ScyllaPyConsistency) : ScyllaPyQuery :=
  let q := ScyllaPyQuery.fromRef self
  { q with params := { q.params with consistency := consistency } }

def ScyllaPyQuery.with_serial_consistency (self : ScyllaPyQuery)
    (serialConsistency : Option ScyllaPySerialConsistency) : ScyllaPyQuery :=
  let q := ScyllaPyQuery.fromRef self
  { q with params := { q.params with serial_consistency := serialConsistency } }

def ScyllaPyQuery.with_request_timeout (self : ScyllaPyQuery)
    (requestTimeout : Option Nat) : ScyllaPyQuery :=
  let q := ScyllaPyQuery.fromRef self
  { q with params := { q.params with request_timeout := requestTimeout } }

def ScyllaPyQuery.with_timestamp (self : ScyllaPyQuery)
    (timestamp : Option Int) : ScyllaPyQuery :=
  let q := ScyllaPyQuery.fromRef self
  { q with params := { q.params with timestamp := timestamp } }

def ScyllaPyQuery.with_is_idempotent (self : ScyllaPyQuery)
    (isIdempotent : Option Bool) : ScyllaPyQuery :=
  let q := ScyllaPyQuery.fromRef self
  { q with params := { q.params with is_idempotent := isIdempotent } }

def ScyllaPyQuery.with_tracing (self : ScyllaPyQuery)
    (tracing : Option Bool) : ScyllaPyQuery :=
  let q := ScyllaPyQuery.fromRef self
  { q with params := { q.params with tracing := tracing } }

def ScyllaPyQuery.with_profile (self : ScyllaPyQuery)
    (profile : Option ScyllaPyExecutionProfile) : ScyllaPyQuery :=
  let q := ScyllaPyQuery.fromRef self
  { q with params := { q.params with profile := profile } }

/-- The driver's `Query` statement (external, consumed): text plus request
options with driver defaults.  The driver's own consistency enums are in
evident bijection with the `ScyllaPy*` ones; the model stores the
`ScyllaPy*` values directly. -/
structure Query where
  contents : String
  consistency : Option ScyllaPyConsistency := none
  serial_consistency : Option ScyllaPySerialConsistency := none
  is_idempotent : Bool := false
  tracing : Bool := false
  execution_profile_handle : Option ScyllaPyExecutionProfile := none
  timestamp : Option Int := none
  request_timeout : Option Nat := none
  deriving DecidableEq, Repr

/-- `ScyllaPyRequestParams::apply_to_query` (`src/queries.rs`, lines 22-38):
`consistency` / `is_idempotent` / `tracing` are set only when present;
profile handle, timestamp, request timeout and serial consistency are set
unconditionally to the optional value. -/
def ScyllaPyRequestParams.apply_to_query (self : ScyllaPyRequestParams)
    (query : Query) : Query :=
  let query := match self.consistency with
    | some c => { query with consistency := some c }
    | none => query
  let query := match self.is_idempotent with
    | some b => { query with is_idempotent := b }
    | none => query
  let query := match self.tracing with
    | some b => { query with tracing := b }
    | none => query
  { query with
    execution_profile_handle := self.profile
    timestamp := self.timestamp
    request_timeout := self.request_timeout
    serial_consistency := self.serial_consistency }

/-- `impl From<ScyllaPyQuery> for Query` (`src/queries.rs`, lines 191-197). -/
def ScyllaPyQuery.toQuery (value : ScyllaPyQuery) : Query :=
  value.params.apply_to_query { contents := value.query }

/-! ## Batches (`src/batches.rs`) and the session core (`src/scylla_cls.rs`) -/

/-- `ScyllaPyBatchType` (`src/batches.rs`, lines 10-16). -/
inductive ScyllaPyBatchType where
  | COUNTER | LOGGED | UNLOGGED
  deriving DecidableEq, Repr

/-- One statement appended to a driver batch (`scylla::batch::BatchStatement`):
query text or a prepared handle token. -/
inductive BatchStatement where
  | query (text : String)
  | prepared (handle : Nat)
  deriving DecidableEq, Repr

/-- The driver's `Batch` (external, consumed): atomicity mode, appended
statements, request options with driver defaults. -/
structure Batch where
  batchType : ScyllaPyBatchType
  statements : List BatchStatement := []
  consistency : Option ScyllaPyConsistency := none
  serial_consistency : Option ScyllaPySerialConsistency := none
  is_idempotent : Bool := false
  tracing : Bool := false
  timestamp : Option Int := none
  deriving DecidableEq, Repr

/-- `ScyllaPyRequestParams::apply_to_batch` (`src/queries.rs`, lines 40-52):
like `apply_to_query` but without profile and request timeout. -/
def ScyllaPyRequestParams.apply_to_batch (self : ScyllaPyRequestParams)
    (batch : Batch) : Batch :=
  let batch := match self.consistency with
    | some c => { batch with consistency := some c }
    | none => batch
  let batch := match self.is_idempotent with
    | some b => { batch with is_idempotent := b }
    | none => batch
  let batch := match self.tracing with
    | some b => { batch with tracing := b }
    | none => batch
  { batch with
    timestamp := self.timestamp
    serial_consistency := self.serial_consistency }

/-- `ScyllaPyBatch` (`src/batches.rs`, lines 18-23): a deferred-binding
batch — statements only, values supplied at execute time. -/
structure ScyllaPyBatch where
  inner : Batch
  request_params : ScyllaPyRequestParams
  deriving DecidableEq, Repr

/-- `ScyllaPyInlineBatch` (`src/batches.rs`, lines 25-31): statements plus
one pre-bound serialized value set per statement, appended by `add_query`. -/
structure ScyllaPyInlineBatch where
  inner : Batch
  request_params : ScyllaPyRequestParams
  values : List SerializedValues
  deriving DecidableEq, Repr

/-- `impl From<ScyllaPyBatch> for Batch` (`src/batches.rs`, lines 33-39). -/
def ScyllaPyBatch.toBatch (value : ScyllaPyBatch) : Batch :=
  value.request_params.apply_to_batch value.inner

/-- `impl From<ScyllaPyInlineBatch> for (Batch, Vec<SerializedValues>)`
(`src/batches.rs`, lines 41-46). -/
def ScyllaPyInlineBatch.toPair (value : ScyllaPyInlineBatch) :
    Batch × List SerializedValues :=
  (value.request_params.apply_to_batch value.inner, value.values)

/-- `ScyllaPyInlineBatch::add_query` (`src/batches.rs`, lines 115-129):
append the statement, and either the parsed values (dicts disallowed) or an
empty value set. -/
def ScyllaPyInlineBatch.add_query (self : ScyllaPyInlineBatch)
    (query : BatchStatement) (values : Option ParamsInput) :
    ScyllaPyResult ScyllaPyInlineBatch := do
  let inner := { self.inner with
    statements := self.inner.statements ++ [query] }
  match values with
  | some passedParams => do
      let parsed ← parse_python_query_params (some passedParams) false none
      .ok { self with inner := inner, values := self.values ++ [parsed] }
  | none =>
      .ok { self with inner := inner, values := self.values ++ [⟨[]⟩] }

/-- The `batch` argument of `Scylla::batch` (`src/inputs.rs`,
`BatchInput`). -/
inductive BatchInput where
  | batch (b : ScyllaPyBatch)
  | inlineBatch (b : ScyllaPyInlineBatch)

/-- The opaque pool handle stored in `scylla_session` while the session is
running (`Arc<RwLock<Option<scylla::Session>>>`). -/
structure Pool where
  token : Nat
  deriving DecidableEq, Repr

/-- The connection-relevant configuration of `Scylla` (`src/scylla_cls.rs`,
lines 20-37).  `sslCert`: `none` when no certificate is configured,
`some ok` when one is, with `ok` recording whether openssl accepts it (the
PEM parse is external; its outcome is a parameter of the model).  The
remaining configuration fields (contact points, timeouts, pool sizing,
keep-alive, profile) only feed the driver's builder, cannot fail, and are
not modelled. -/
structure Scylla where
  username : Option String := none
  password : Option String := none
  sslCert : Option Bool := none

/-- `Scylla::startup` (`src/scylla_cls.rs`, lines 168-252), as a transition
on the stored pool handle.  In source order: TLS material is built before
the future (a bad certificate fails with `SSLError` first); the future then
fails if a session is already stored; the builder chain fails on a
username/password mismatch; finally `build()` — whose outcome is the
external driver's and is passed in as `buildResult` — either stores the new
pool or fails with `ScyllaSessionError`. -/
def Scylla.startup (self : Scylla) (state : Option Pool)
    (buildResult : Except String Pool) : ScyllaPyResult (Option Pool) :=
  match self.sslCert with
  | some false => .error .sslError
  | _ =>
    if state.isSome then
      .error (.sessionError "Session already initialized.")
    else
      match self.username, self.password with
      | some _, none => .error (.sessionError
          "Cannot use username without a password and vice versa.")
      | none, some _ => .error (.sessionError
          "Cannot use username without a password and vice versa.")
      | _, _ =>
          match buildResult with
          | .ok pool => .ok (some pool)
          | .error e => .error (.scyllaSessionError e)

/-- `Scylla::shutdown` (`src/scylla_cls.rs`, lines 260-272): drop the stored
pool; fail if none is stored. -/
def Scylla.shutdown (state : Option Pool) : ScyllaPyResult (Option Pool) :=
  if state.isNone then
    .error (.sessionError "The session is not initialized.")
  else
    .ok none

/-- `PreparedStatement`: opaque server-side handle. -/
structure PreparedStatement where
  handle : Nat
  deriving DecidableEq, Repr

/-- What `native_execute` hands to the driver: which call was made, with the
statement and the serialized bind values. -/
inductive NativeExecution where
  | pagedQuery (q : Query) (values : SerializedValues)
  | pagedPrepared (p : PreparedStatement) (values : SerializedValues)
  | materializedQuery (q : Query) (values : SerializedValues)
  | materializedPrepared (p : PreparedStatement) (values : SerializedValues)
  deriving DecidableEq, Repr

/-- `Scylla::native_execute` (`src/scylla_cls.rs`, lines 52-96): fails with
`SessionError` when no pool handle is stored; otherwise dispatches on which
of query/prepared was passed (exactly one must be). -/
def Scylla.native_execute (state : Option Pool) (query : Option Query)
    (prepared : Option PreparedStatement) (values : SerializedValues)
    (paged : Bool) : ScyllaPyResult NativeExecution :=
  match state with
  | none => .error (.sessionError "Session is not initialized.")
  | some _ =>
      match query, prepared with
      | some q, none =>
          .ok (if paged then .pagedQuery q values else .materializedQuery q values)
      | none, some p =>
          .ok (if paged then .pagedPrepared p values
            else .materializedPrepared p values)
      | _, _ =>
          .error (.sessionError "You should pass either query or prepared query.")

/-- The `query` argument of `Scylla::execute` (`src/inputs.rs`,
`ExecuteInput`). -/
inductive ExecuteInput where
  | text (s : String)
  | query (q : ScyllaPyQuery)
  | preparedQuery (p : PreparedStatement)

/-- `Scylla::execute` (`src/scylla_cls.rs`, lines 286-303): parse the bind
values (dicts allowed, no column specs at this call site), split the input
into query vs prepared, and run `native_execute`. -/
def Scylla.execute (state : Option Pool) (query : ExecuteInput)
    (params : Option ParamsInput) (paged : Bool) :
    ScyllaPyResult NativeExecution := do
  let queryParams ← parse_python_query_params params true none
  match query with
  | .text txt =>
      Scylla.native_execute state (some { contents := txt }) none queryParams paged
  | .query q =>
      Scylla.native_execute state (some q.toQuery) none queryParams paged
  | .preparedQuery p =>
      Scylla.native_execute state none (some p) queryParams paged

/-- The pure preparation step of `Scylla::batch` (`src/scylla_cls.rs`, lines
320-331), before the future is spawned: a deferred-binding batch parses each
supplied parameter set (dicts disallowed, parsing nothing when `params` is
`None`); an inline batch takes its own pre-bound values — the `params`
argument is not consulted in that arm. -/
def Scylla.batchPrepare (batch : BatchInput)
    (params : Option (List ParamsInput)) :
    ScyllaPyResult (Batch × List SerializedValues) :=
  match batch with
  | .batch b => do
      let batchParams ←
        (match params with
          | some passedParams =>
              passedParams.mapM (fun queryParams =>
                parse_python_query_params (some queryParams) false none)
          | none => (.ok [] : ScyllaPyResult (List SerializedValues)))
      .ok (b.toBatch, batchParams)
  | .inlineBatch inline => .ok inline.toPair

/-- `Scylla::batch` (`src/scylla_cls.rs`, lines 309-343): the preparation
step above, then the session check inside the future. -/
def Scylla.batch (state : Option Pool) (batch : BatchInput)
    (params : Option (List ParamsInput)) :
    ScyllaPyResult (Batch × List SerializedValues) := do
  let pair ← Scylla.batchPrepare batch params
  match state with
  | none => .error (.sessionError "Session is not initialized.")
  | some _ => .ok pair

/-! ## Claims -/

/-! ### C3: declared-type propagation into collection elements

The source's collection arm (`src/utils.rs`, lines 294-302) recurses with
`column_type` itself — the whole declared `list<T>`/`set<T>` — not with its
element type `T`, so an integer element of a column declared `list<bigint>`
falls into the encoder's `Some(_) | None` arm and is encoded at the 32-bit
default width. -/

/-- C3, counterexample: encoding the host list `[5]` with declared type
`list<bigint>` yields an `Int` (32-bit) binding for the element, not a
`BigInt` (64-bit) one: its tag differs from the `BigInt` tag and its wire
payload is 4 bytes, not 8. -/
theorem c3_counterexample :
    py_to_value (.pyList [.pyInt 5]) (some (.list .bigint)) =
      .ok (.list [.int 5]) ∧
    (ScyllaPyCQLDTO.int 5).tag ≠ (ScyllaPyCQLDTO.bigInt 5).tag ∧
    (serializeDTO (.int 5)).map List.length = .ok 8 ∧
    (serializeDTO (.bigInt 5)).map List.length = .ok 12 := by
  refine ⟨rfl, by decide, ?_, ?_⟩ <;>
    simp [serializeDTO, Except.map, beBytes_length, beBytesI_length]

/-- C3 (amended): when encoding a host list, tuple or set with a declared
composite column type, the encoder recurses element-wise passing the
declared type through *unchanged* as each element's declared-type context;
consequently an integer element of a column declared `list<bigint>` is
encoded at the 32-bit default width, not at 64 bits. -/
theorem c3_amended (elems : List PyValue) (ct : Option ColumnType) :
    py_to_value (.pyList elems) ct = (pyToValueSeq elems ct).map .list ∧
    py_to_value (.pyTuple elems) ct = (pyToValueSeq elems ct).map .list ∧
    py_to_value (.pySet elems) ct = (pyToValueSeq elems ct).map .list ∧
    (∀ n : Int, fitsSigned 32 n →
      py_to_value (.pyList [.pyInt n]) (some (.list .bigint)) =
        .ok (.list [.int n])) := by
  refine ⟨?_, ?_, ?_, ?_⟩
  · cases h : pyToValueSeq elems ct <;>
      simp [py_to_value, h, Except.map, Bind.bind, Except.bind]
  · cases h : pyToValueSeq elems ct <;>
      simp [py_to_value, h, Except.map, Bind.bind, Except.bind]
  · cases h : pyToValueSeq elems ct <;>
      simp [py_to_value, h, Except.map, Bind.bind, Except.bind]
  · intro n hn
    simp [py_to_value, pyToValueSeq, hn, Bind.bind, Except.bind]

/-- C3, witness for the amended theorem. -/
theorem c3_amended_witness :
    py_to_value (.pyList [.pyInt 7]) (some (.list .bigint)) =
      .ok (.list [.int 7]) :=
  (c3_amended [] none).2.2.2 7 (by decide)

/-! ### C4: inline batch with an externally supplied bind list

`Scylla::batch` (`src/scylla_cls.rs`, lines 320-331) consumes the `params`
argument only in the deferred-binding arm; the inline arm is
`BatchInput::InlineBatch(inline) => inline.into()`, which drops `params`
without error. -/

/-- C4, counterexample: executing an inline batch with an externally
supplied per-statement bind list succeeds (no error) and submits the
batch's own pre-bound values — the external list is silently ignored, not
rejected. -/
theorem c4_counterexample :
    Scylla.batch (some ⟨0⟩)
      (.inlineBatch
        ⟨{ batchType := .UNLOGGED, statements := [.query "q"] }, {},
          [⟨[.unnamed [0, 0, 0, 1, 1]]⟩]⟩)
      (some [.positional [.pyInt 1]]) =
    .ok ({ batchType := .UNLOGGED, statements := [.query "q"] },
      [⟨[.unnamed [0, 0, 0, 1, 1]]⟩]) := rfl

/-- C4 (amended): the preparation step of `Scylla::batch` never consults the
externally supplied bind list for an inline batch: for every inline batch
and every `params` argument it succeeds with the batch's own pre-bound
serialized values (after its request parameters are applied), identically
for every value of `params`. -/
theorem c4_amended (inline : ScyllaPyInlineBatch)
    (params : Option (List ParamsInput)) :
    Scylla.batchPrepare (.inlineBatch inline) params = .ok inline.toPair := rfl

/-! ### C5: copy-with-override on statements

`impl From<&ScyllaPyQuery> for ScyllaPyQuery` (`src/queries.rs`, lines
108-115) resets `params` to `ScyllaPyRequestParams::default()`, and every
`with_x` method builds on that reset copy, so the seven `with_x` methods
preserve the query text but erase every other request-parameter field
instead of copying it. -/

/-- C5, counterexample: deriving `with_consistency` from a statement whose
timestamp is set yields a statement whose timestamp is `None`, not the
original `Some 5`. -/
theorem c5_counterexample :
    (((⟨"SELECT 1", { timestamp := some 5 }⟩ : ScyllaPyQuery).with_consistency
        (some .QUORUM)).params.timestamp = none) ∧
    ((⟨"SELECT 1", { timestamp := some 5 }⟩ : ScyllaPyQuery).params.timestamp =
      some 5) := by
  exact ⟨rfl, rfl⟩

/-- C5 (amended): for every statement `q` and value `v`, `with_x(v)` returns
a new statement whose query text equals `q`'s and whose request parameters
are the all-`None` defaults with only the field `x` set to `v`; every other
field is reset to `None` (not copied from `q`).  `q` itself is unchanged —
the methods take `&self` and build a fresh value (immediate in this pure
embedding). -/
theorem c5_amended (q : ScyllaPyQuery)
    (c : Option ScyllaPyConsistency) (sc : Option ScyllaPySerialConsistency)
    (rt : Option Nat) (ts : Option Int) (idem : Option Bool)
    (tr : Option Bool) (prof : Option ScyllaPyExecutionProfile) :
    q.with_consistency c = ⟨q.query, { consistency := c }⟩ ∧
    q.with_serial_consistency sc = ⟨q.query, { serial_consistency := sc }⟩ ∧
    q.with_request_timeout rt = ⟨q.query, { request_timeout := rt }⟩ ∧
    q.with_timestamp ts = ⟨q.query, { timestamp := ts }⟩ ∧
    q.with_is_idempotent idem = ⟨q.query, { is_idempotent := idem }⟩ ∧
    q.with_tracing tr = ⟨q.query, { tracing := tr }⟩ ∧
    q.with_profile prof = ⟨q.query, { profile := prof }⟩ :=
  ⟨rfl, rfl, rfl, rfl, rfl, rfl, rfl⟩

/-! ### C6: width disambiguation -/

/-- C6 (confirmed): encoding the same host integer (small enough for every
width) with declared type `TinyInt` / `SmallInt` / `Int` / `BigInt` /
`Counter` produces five bindings with five distinct tags, and their wire
values have payload lengths 1, 2, 4, 8 and 8 bytes (excluding the 4-byte
length prefix). -/
theorem c6_width_disambiguation (n : Int) (h : fitsSigned 8 n) :
    py_to_value (.pyInt n) (some .tinyint) = .ok (.tinyInt n) ∧
    py_to_value (.pyInt n) (some .smallint) = .ok (.smallInt n) ∧
    py_to_value (.pyInt n) (some .int) = .ok (.int n) ∧
    py_to_value (.pyInt n) (some .bigint) = .ok (.bigInt n) ∧
    py_to_value (.pyInt n) (some .counter) = .ok (.counter n) ∧
    [(ScyllaPyCQLDTO.tinyInt n).tag, (ScyllaPyCQLDTO.smallInt n).tag,
      (ScyllaPyCQLDTO.int n).tag, (ScyllaPyCQLDTO.bigInt n).tag,
      (ScyllaPyCQLDTO.counter n).tag].Nodup ∧
    (serializeDTO (.tinyInt n)).map (fun b => b.length - 4) = .ok 1 ∧
    (serializeDTO (.smallInt n)).map (fun b => b.length - 4) = .ok 2 ∧
    (serializeDTO (.int n)).map (fun b => b.length - 4) = .ok 4 ∧
    (serializeDTO (.bigInt n)).map (fun b => b.length - 4) = .ok 8 ∧
    (serializeDTO (.counter n)).map (fun b => b.length - 4) = .ok 8 := by
  obtain ⟨h1, h2⟩ := h
  have f8 : fitsSigned 8 n := ⟨h1, h2⟩
  have f16 : fitsSigned 16 n := by unfold fitsSigned at *; push_cast at *; omega
  have f32 : fitsSigned 32 n := by unfold fitsSigned at *; push_cast at *; omega
  have f64 : fitsSigned 64 n := by unfold fitsSigned at *; push_cast at *; omega
  refine ⟨?_, ?_, ?_, ?_, ?_,
    by show ([6, 5, 4, 3, 7] : List Nat).Nodup; decide, ?_, ?_, ?_, ?_, ?_⟩ <;>
    simp [py_to_value, f8, f16, f32, f64, serializeDTO, Except.map,
      beBytes_length, beBytesI_length]

/-- C6, witness. -/
theorem c6_witness :
    py_to_value (.pyInt 42) (some .tinyint) = .ok (.tinyInt 42) :=
  (c6_width_disambiguation 42 (by decide)).1

/-! ### C2: session lifecycle

The three claimed lifecycle behaviors hold.  The parenthetical — "the
stored pool-handle state is the *sole* discriminator for SessionError" —
does not: `Scylla::startup` also raises `SessionError` for a conflicting
credential combination (`src/scylla_cls.rs`, lines 232-240), even on a
fresh session whose handle state is exactly what startup requires. -/

/-- The result is a `ScyllaPyError::SessionError`. -/
def isSessionError {α : Type} : ScyllaPyResult α → Prop
  | .error (.sessionError _) => True
  | _ => False

/-- A username without a password or vice versa (`src/scylla_cls.rs`, lines
232-240). -/
def credsConflict (cfg : Scylla) : Bool :=
  match cfg.username, cfg.password with
  | some _, none => true
  | none, some _ => true
  | _, _ => false

/-- C2, counterexample: on a session configured with a username but no
password, `startup` on a *fresh* handle state (absent, exactly as startup
requires) still raises `SessionError` — so the handle state is not the sole
discriminator. -/
theorem c2_counterexample :
    Scylla.startup { username := some "user" } none (.ok ⟨0⟩) =
      .error (.sessionError
        "Cannot use username without a password and vice versa.") := rfl

/-- C2 (amended): `startup` on a running session (with parseable TLS
configuration) raises `SessionError`; `execute` with no stored handle (both
before any startup and after a shutdown, whose success and handle-dropping
are also stated) raises `SessionError`; and the handle state is the
discriminator for `SessionError` on `shutdown`, `execute` and `batch`
(given bind values that parse), while for `startup` the discriminator is
the handle state *or* a conflicting username/password combination. -/
theorem c2_amended (cfg : Scylla) (st : Option Pool)
    (build : Except String Pool) (q : ExecuteInput)
    (params : Option ParamsInput) (paged : Bool) (vs : SerializedValues)
    (hp : parse_python_query_params params true none = .ok vs)
    (binput : BatchInput) (bparams : Option (List ParamsInput))
    (pr : Batch × List SerializedValues)
    (hb : Scylla.batchPrepare binput bparams = .ok pr) :
    (cfg.sslCert ≠ some false → st.isSome →
      Scylla.startup cfg st build =
        .error (.sessionError "Session already initialized.")) ∧
    (Scylla.execute none q params paged =
      .error (.sessionError "Session is not initialized.")) ∧
    (st.isSome → Scylla.shutdown st = .ok none) ∧
    (cfg.sslCert ≠ some false →
      (isSessionError (Scylla.startup cfg st build) ↔
        st.isSome ∨ credsConflict cfg = true)) ∧
    (isSessionError (Scylla.shutdown st) ↔ st = none) ∧
    (isSessionError (Scylla.execute st q params paged) ↔ st = none) ∧
    (isSessionError (Scylla.batch st binput bparams) ↔ st = none) := by
  obtain ⟨u, pw, ssl⟩ := cfg
  refine ⟨?_, ?_, ?_, ?_, ?_, ?_, ?_⟩
  · intro hne hsome
    unfold Scylla.startup
    cases st <;> rcases ssl with _ | (_ | _) <;> simp_all
  · cases q <;>
      simp [Scylla.execute, Scylla.native_execute, hp, Bind.bind, Except.bind]
  · intro hsome
    cases st <;> simp_all [Scylla.shutdown]
  · intro hne
    unfold Scylla.startup credsConflict
    cases st <;> cases u <;> cases pw <;> cases build <;>
      rcases ssl with _ | (_ | _) <;>
      simp_all [isSessionError]
  · cases st <;> simp [Scylla.shutdown, isSessionError]
  · cases st with
    | none =>
        cases q <;>
          simp [Scylla.execute, Scylla.native_execute, hp, Bind.bind,
            Except.bind, isSessionError]
    | some p =>
        cases q <;>
          cases paged <;>
          simp [Scylla.execute, Scylla.native_execute, hp, Bind.bind,
            Except.bind, isSessionError]
  · cases st <;>
      simp [Scylla.batch, hb, Bind.bind, Except.bind, isSessionError]

/-- C2, witness. -/
theorem c2_witness :
    Scylla.execute none (.text "SELECT 1") none false =
      .error (.sessionError "Session is not initialized.") :=
  (c2_amended {} none (.ok ⟨0⟩) (.text "SELECT 1") none false ⟨[]⟩ rfl
    (.batch ⟨{ batchType := .UNLOGGED }, {}⟩) none
    ({ batchType := .UNLOGGED }, []) rfl).2.1

/-! ### C7: UDT length header -/

/-- Serialize each binding of a sequence independently, keeping the chunks
separate. -/
def serializeEach : List ScyllaPyCQLDTO → Except Unit (List (List Nat))
  | [] => .ok []
  | d :: rest => do
      let b ← serializeDTO d
      let bs ← serializeEach rest
      .ok (b :: bs)

theorem serializeSeq_eq (dtos : List ScyllaPyCQLDTO) :
    serializeSeq dtos = (serializeEach dtos).map List.join := by
  induction dtos with
  | nil => rfl
  | cons d rest ih =>
      cases hd : serializeDTO d <;> cases hr : serializeEach rest <;>
        simp_all [serializeSeq, serializeEach, Bind.bind, Except.bind,
          Except.map]

/-- C7 (confirmed): for a host value dumped through the `__dump_udt__` path,
whose `N` fields convert to bindings `dtos` serializing to byte chunks
`bufs`, the produced `Udt` payload consists of a 4-byte header equal to
(total payload length − 4) in big-endian, followed by exactly the
concatenation of each field's independently-serialized bytes in declared
field order; and when the total payload length does not fit in an `i32`,
the encoder fails with the source's `BindingError`. -/
theorem c7_udt_header (ct : Option ColumnType) (vals : List PyValue)
    (dtos : List ScyllaPyCQLDTO) (bufs : List (List Nat))
    (hconv : pyToValueSeq vals none = .ok dtos)
    (hser : serializeEach dtos = .ok bufs) :
    (4 + bufs.join.length ≤ i32Max →
      py_to_value (.pyUdtDump vals) ct =
        .ok (.udt (beBytesI 4 (bufs.join.length : Int) ++ bufs.join)) ∧
      (beBytesI 4 (bufs.join.length : Int) ++ bufs.join).length =
        4 + bufs.join.length ∧
      (beBytesI 4 (bufs.join.length : Int) ++ bufs.join).take 4 =
        beBytesI 4
          ((((beBytesI 4 (bufs.join.length : Int) ++ bufs.join).length : Nat) :
            Int) - 4) ∧
      (beBytesI 4 (bufs.join.length : Int) ++ bufs.join).drop 4 =
        bufs.join) ∧
    (i32Max < 4 + bufs.join.length →
      py_to_value (.pyUdtDump vals) ct =
        .error (.bindingError "Cannot serialize. UDT value is too big.")) := by
  have hjoin : serializeSeq dtos = .ok bufs.join := by
    rw [serializeSeq_eq, hser]
    rfl
  have hlen : (beBytesI 4 (bufs.join.length : Int) ++ bufs.join).length =
      4 + bufs.join.length := by
    simp [beBytesI_length]
  have hcast : ((4 + bufs.join.length : Nat) : Int) - 4 =
      (bufs.join.length : Int) := by
    push_cast
    ring
  constructor
  · intro hle
    refine ⟨?_, hlen, ?_, ?_⟩
    · simp only [py_to_value, hconv, hjoin, Bind.bind, Except.bind]
      rw [if_pos hle, hcast]
    · rw [hlen, hcast]
      exact List.take_left' (beBytesI_length 4 _)
    · exact List.drop_left' (beBytesI_length 4 _)
  · intro hgt
    have hne : ¬(4 + bufs.join.length ≤ i32Max) := by omega
    simp only [py_to_value, hconv, hjoin, Bind.bind, Except.bind]
    rw [if_neg hne]

/-- C7, witness: both arms exercised — a two-field UDT produces the
documented header and layout, and a UDT holding a maximal blob overflows
the `i32` length and is rejected. -/
theorem c7_witness :
    py_to_value (.pyUdtDump [.pyInt 1, .pyBool true]) none =
      .ok (.udt (beBytesI 4 (13 : Int) ++
        (beBytes 4 4 ++ beBytesI 4 1 ++ (beBytes 4 1 ++ [1])))) ∧
    py_to_value (.pyUdtDump [.pyBytes (List.replicate i32Max 0)]) none =
      .error (.bindingError "Cannot serialize. UDT value is too big.") := by
  constructor
  · have h := (c7_udt_header none [.pyInt 1, .pyBool true]
      [.int 1, .bool true]
      [beBytes 4 4 ++ beBytesI 4 1, beBytes 4 1 ++ [1]]
      rfl rfl).1
        (by norm_num [beBytes_length, beBytesI_length, i32Max])
    rw [h.1]
    rfl
  · have hb : (List.replicate i32Max (0 : Nat)).length ≤ i32Max := by
      rw [List.length_replicate]
    have hser : serializeEach [ScyllaPyCQLDTO.bytes (List.replicate i32Max 0)]
        = .ok [beBytes 4 (List.replicate i32Max (0 : Nat)).length ++
            List.replicate i32Max 0] := by
      simp only [serializeEach, serializeDTO]
      rw [if_pos hb]
      rfl
    have h := (c7_udt_header none [.pyBytes (List.replicate i32Max 0)]
      [.bytes (List.replicate i32Max 0)]
      [beBytes 4 (List.replicate i32Max (0 : Nat)).length ++
        List.replicate i32Max 0]
      rfl hser).2
    have hl : ([beBytes 4 (List.replicate i32Max (0 : Nat)).length ++
        List.replicate i32Max 0] : List (List Nat)).join.length =
        4 + i32Max := by
      simp [beBytes_length]
    apply h
    rw [hl]
    omega

/-! ### C10: named bind parameters are lowercased -/

theorem charToLower_idem (c : Char) : c.toLower.toLower = c.toLower := by
  unfold Char.toLower
  by_cases h : c.toNat ≥ 65 ∧ c.toNat ≤ 90
  · rw [if_pos h]
    have hv : (c.toNat + 32).isValidChar := by
      unfold Nat.isValidChar
      left
      omega
    have ht : (Char.ofNat (c.toNat + 32)).toNat = c.toNat + 32 := by
      unfold Char.ofNat
      rw [dif_pos hv]
      rfl
    rw [if_neg]
    rw [ht]
    omega
  · rw [if_neg h, if_neg h]

theorem stringToLower_idem (s : String) : s.toLower.toLower = s.toLower := by
  unfold String.toLower
  rw [String.map_eq, String.map_eq]
  simp only [List.map_map]
  have hc : Char.toLower ∘ Char.toLower = Char.toLower := funext charToLower_idem
  rw [hc]

/-- The registered names produced by the named-binding loop: the accumulator
followed by the lowercased dict keys, in order. -/
theorem addNamed_names (colSpec : Option (List ColumnSpec))
    (pairs : List (String × PyValue)) (acc vs : SerializedValues)
    (h : addNamed colSpec pairs acc = .ok vs) :
    vs.values.map SerializedValue.regName =
      acc.values.map SerializedValue.regName ++
        pairs.map (fun p => some p.1.toLower) := by
  induction pairs generalizing acc with
  | nil =>
      simp only [addNamed] at h
      injection h with h2
      subst h2
      simp
  | cons p rest ih =>
      obtain ⟨name, value⟩ := p
      simp only [addNamed, Bind.bind, Except.bind] at h
      cases hdto : py_to_value value
          (fieldLookup name
            ((Option.map (fun specs =>
              List.map (fun sp => (sp.name, sp.typ)) specs) colSpec).getD [])) with
      | error e => rw [hdto] at h; cases h
      | ok dto =>
          rw [hdto] at h
          simp only [addNamedValue] at h
          cases hser : serializeDTO dto with
          | error e => rw [hser] at h; cases h
          | ok bytes =>
              rw [hser] at h
              have := ih ⟨acc.values ++ [.named name.toLower bytes]⟩ h
              simp only [this, List.map_append]
              simp [SerializedValue.regName]

/-- C10 (confirmed): when bind values are supplied as a named mapping, the
value of every entry is registered under the lowercased key, positionally:
the list of registered names equals the dict's keys mapped through
`to_lowercase`.  Consequently two keys agreeing up to case register under
the same name (collision), and a mixed-case key (one changed by
lowercasing) never appears among the registered names. -/
theorem c10_lowercase_named_binding (pairs : List (String × PyValue))
    (colSpec : Option (List ColumnSpec)) (vs : SerializedValues)
    (h : parse_python_query_params (some (.named pairs)) true colSpec =
      .ok vs) :
    vs.values.map SerializedValue.regName =
      pairs.map (fun p => some p.1.toLower) ∧
    (∀ p q : String × PyValue, p ∈ pairs → q ∈ pairs →
      p.1.toLower = q.1.toLower →
      (some p.1.toLower) = (some q.1.toLower : Option String)) ∧
    (∀ p : String × PyValue, p ∈ pairs → p.1.toLower ≠ p.1 →
      some p.1 ∉ vs.values.map SerializedValue.regName) := by
  simp only [parse_python_query_params, if_pos] at h
  have hnames := addNamed_names colSpec pairs ⟨[]⟩ vs h
  simp only [List.map_nil, List.nil_append] at hnames
  refine ⟨hnames, ?_, ?_⟩
  · intro p q hp hq hlow
    rw [hlow]
  · intro p hp hne hmem
    rw [hnames] at hmem
    obtain ⟨q, hq, hqe⟩ := List.mem_map.mp hmem
    injection hqe with hqe
    have : p.1.toLower = p.1 := by
      calc p.1.toLower = q.1.toLower.toLower := by rw [hqe]
        _ = q.1.toLower := stringToLower_idem q.1
        _ = p.1 := hqe
    exact hne this

/-- C10, witness. -/
theorem c10_witness :
    (SerializedValues.mk
      [.named ("UserId" : String).toLower [0, 0, 0, 4, 0, 0, 0, 1],
        .named ("name" : String).toLower [0, 0, 0, 1, 120]]).values.map
      SerializedValue.regName = [some "userid", some "name"] := by
  have h := (c10_lowercase_named_binding
    [("UserId", .pyInt 1), ("name", .pyStr "x")] none
    ⟨[.named ("UserId" : String).toLower [0, 0, 0, 4, 0, 0, 0, 1],
      .named ("name" : String).toLower [0, 0, 0, 1, 120]]⟩ (by rfl)).1
  rw [h]
  have hlow1 : ("UserId" : String).toLower = "userid" := by
    unfold String.toLower
    rw [String.map_eq]
    decide
  have hlow2 : ("name" : String).toLower = "name" := by
    unfold String.toLower
    rw [String.map_eq]
    decide
  simp [hlow1, hlow2]

/-! ### C8: UDT schema-drift detection

Decoding stops at the first offending wire field: a wire field whose *name*
is unknown raises `UDTDowncastError` naming the UDT and the field, but only
once every preceding wire field has decoded successfully — a preceding
field whose *value* mismatches its declared type raises
`ValueDowncastError` first. -/

/-- The result is a `UDTDowncastError`. -/
def isUDTDowncastError {α : Type} : ScyllaPyResult α → Prop
  | .error (.udtDowncastError _ _ _) => True
  | _ => False

/-- C8, counterexample: a wire UDT containing the unknown field `ghost`
behind a known field whose value mismatches its declared type decodes to a
`ValueDowncastError`, not a `UDTDowncastError` — so "decoding a wire UDT
that contains an unknown field name raises UDTDowncastError" fails as
stated. -/
theorem c8_counterexample :
    cql_to_py "col" (.userDefinedType "t" "ks" [("a", .int)])
      (some (.userDefinedType "ks" "t"
        [("a", some (.text "x")), ("ghost", none)])) =
      .error (.valueDowncastError "col" "Int") ∧
    ¬ isUDTDowncastError
      (cql_to_py "col" (.userDefinedType "t" "ks" [("a", .int)])
        (some (.userDefinedType "ks" "t"
          [("a", some (.text "x")), ("ghost", none)]))) := by
  have h : cql_to_py "col" (.userDefinedType "t" "ks" [("a", .int)])
      (some (.userDefinedType "ks" "t"
        [("a", some (.text "x")), ("ghost", none)])) =
      .error (.valueDowncastError "col" "Int") := by
    simp [cql_to_py, CqlValue.as_udt, cqlToPyUdt, fieldLookup,
      CqlValue.as_int, Bind.bind, Except.bind]
  refine ⟨h, ?_⟩
  rw [h]
  simp [isUDTDowncastError]

/-- The wire-field loop raises the source's `UDTDowncastError` at the first
wire field whose name is missing from the declared map, provided every
earlier field decodes. -/
theorem cqlToPyUdt_unknown_field (colName udtLabel : String)
    (fts : List (String × ColumnType))
    (pre : List (String × Option CqlValue)) (key : String)
    (v : Option CqlValue) (rest : List (String × Option CqlValue))
    (hpre : ∀ p ∈ pre, ∃ ty pv, fieldLookup p.1 fts = some ty ∧
      cql_to_py colName ty p.2 = .ok pv)
    (hkey : fieldLookup key fts = none) :
    cqlToPyUdt colName udtLabel fts (pre ++ (key, v) :: rest) =
      .error (.udtDowncastError udtLabel colName
        ("UDT field " ++ key ++ " is not defined in schema")) := by
  induction pre with
  | nil =>
      rw [List.nil_append]
      simp only [cqlToPyUdt]
      split
      · rfl
      · next ty hsome =>
          rw [hkey] at hsome
          cases hsome
  | cons p ps ih =>
      obtain ⟨pname, pval⟩ := p
      obtain ⟨ty, pv, hl, hd⟩ := hpre (pname, pval) (List.mem_cons_self _ _)
      have htail := ih (fun q hq => hpre q (List.mem_cons_of_mem _ hq))
      rw [List.cons_append]
      simp only [cqlToPyUdt]
      split
      · next hnone =>
          rw [hl] at hnone
          cases hnone
      · next ty2 hsome =>
          rw [hl] at hsome
          injection hsome with hty
          subst hty
          simp only [hd, htail, Bind.bind, Except.bind]

/-- A successful wire-field loop implies every wire field name occurs in the
declared map. -/
theorem cqlToPyUdt_ok_mem (colName udtLabel : String)
    (fts : List (String × ColumnType))
    (wire : List (String × Option CqlValue))
    (out : List (String × PyValue))
    (h : cqlToPyUdt colName udtLabel fts wire = .ok out) :
    ∀ p ∈ wire, fieldLookup p.1 fts ≠ none := by
  induction wire generalizing out with
  | nil => simp
  | cons p ps ih =>
      obtain ⟨pname, pval⟩ := p
      simp only [cqlToPyUdt] at h
      split at h
      · cases h
      · next ty hsome =>
          intro q hq
          rcases List.mem_cons.mp hq with hq2 | hq2
          · subst hq2
            rw [hsome]
            simp
          · simp only [Bind.bind, Except.bind] at h
            cases hd : cql_to_py colName ty pval with
            | error e =>
                rw [hd] at h
                cases h
            | ok pv =>
                rw [hd] at h
                cases ht : cqlToPyUdt colName udtLabel fts ps with
                | error e =>
                    rw [ht] at h
                    cases h
                | ok tail => exact ih tail ht q hq2

/-- C8 (amended): decoding a wire UDT that contains a field name absent from
the declared field-name-to-type map raises a `UDTDowncastError` naming the
keyspace-qualified UDT and the unknown field, *provided every wire field
preceding the first unknown one decodes successfully* (decode reports the
first failure in wire order, and a preceding value-type mismatch raises
`ValueDowncastError` instead); and decoding succeeds only when every wire
field name occurs in the declared field-type map. -/
theorem c8_amended (colName typeName keyspace : String)
    (fts : List (String × ColumnType))
    (pre : List (String × Option CqlValue)) (key : String)
    (v : Option CqlValue) (rest : List (String × Option CqlValue))
    (hpre : ∀ p ∈ pre, ∃ ty pv, fieldLookup p.1 fts = some ty ∧
      cql_to_py colName ty p.2 = .ok pv)
    (hkey : fieldLookup key fts = none) :
    cql_to_py colName (.userDefinedType typeName keyspace fts)
      (some (.userDefinedType keyspace typeName (pre ++ (key, v) :: rest))) =
      .error (.udtDowncastError (keyspace ++ "." ++ typeName) colName
        ("UDT field " ++ key ++ " is not defined in schema")) ∧
    (∀ (wire : List (String × Option CqlValue)) (out : PyValue),
      cql_to_py colName (.userDefinedType typeName keyspace fts)
        (some (.userDefinedType keyspace typeName wire)) = .ok out →
      ∀ p ∈ wire, fieldLookup p.1 fts ≠ none) := by
  constructor
  · have hu := cqlToPyUdt_unknown_field colName (keyspace ++ "." ++ typeName)
      fts pre key v rest hpre hkey
    simp only [cql_to_py, CqlValue.as_udt, hu, Bind.bind, Except.bind]
  · intro wire out h q hq
    simp only [cql_to_py, CqlValue.as_udt, Bind.bind, Except.bind] at h
    cases ht : cqlToPyUdt colName (keyspace ++ "." ++ typeName) fts wire with
    | error e =>
        rw [ht] at h
        cases h
    | ok decoded => exact cqlToPyUdt_ok_mem _ _ _ _ _ ht q hq

/-- C8, witness. -/
theorem c8_witness :
    cql_to_py "col" (.userDefinedType "t" "ks" [("a", .int)])
      (some (.userDefinedType "ks" "t"
        [("a", some (.int 1)), ("ghost", none)])) =
      .error (.udtDowncastError "ks.t" "col"
        "UDT field ghost is not defined in schema") := by
  have h := (c8_amended "col" "t" "ks" [("a", .int)]
    [("a", some (.int 1))] "ghost" none []
    (by
      intro p hp
      simp only [List.mem_singleton] at hp
      subst hp
      refine ⟨.int, .pyInt 1, rfl, ?_⟩
      simp [cql_to_py, CqlValue.as_int])
    rfl).1
  simpa using h

/-! ### C9: null decode and absence of Unset in decode output -/

mutual

/-- No `Unset` sentinel occurs anywhere inside a Python value (the claim:
decode output is unset-free). -/
def unsetFree : PyValue → Bool
  | .pyUnset => false
  | .pyList elems => unsetFreeList elems
  | .pyTuple elems => unsetFreeList elems
  | .pySet elems => unsetFreeList elems
  | .pyDict pairs => unsetFreePairs pairs
  | .pyUdtDump vals => unsetFreeList vals
  | _ => true
/-- `unsetFree` over a list of values. -/
def unsetFreeList : List PyValue → Bool
  | [] => true
  | x :: xs => unsetFree x && unsetFreeList xs
/-- `unsetFree` over key/value pairs. -/
def unsetFreePairs : List (PyValue × PyValue) → Bool
  | [] => true
  | (k, v) :: ps => unsetFree k && unsetFree v && unsetFreePairs ps
end

theorem unsetFreePairs_udtMap (rs : List (String × PyValue)) :
    unsetFreePairs (rs.map (fun p => (.pyStr p.1, p.2))) =
      unsetFreeList (rs.map Prod.snd) := by
  induction rs with
  | nil => rfl
  | cons p ps ih =>
      cases p
      simp [unsetFreePairs, unsetFreeList, unsetFree, ih]

set_option maxHeartbeats 2000000 in
theorem cql_to_py_unsetFree (colName : String) :
    ∀ (t : ColumnType) (cv : Option CqlValue) (r : PyValue),
      cql_to_py colName t cv = .ok r → unsetFree r = true := by
  apply cql_to_py.induct colName
    (fun t cv => ∀ r, cql_to_py colName t cv = .ok r → unsetFree r = true)
    (fun lbl fts wire => ∀ rs, cqlToPyUdt colName lbl fts wire = .ok rs →
      unsetFreeList (rs.map Prod.snd) = true)
    (fun ts vs => ∀ rs, cqlToPyTuple colName ts vs = .ok rs →
      unsetFreeList rs = true)
    (fun kt vt ps => ∀ rs, cqlToPyPairs colName kt vt ps = .ok rs →
      unsetFreePairs rs = true)
    (fun et l => ∀ rs, cqlToPySeq colName et l = .ok rs →
      unsetFreeList rs = true)
  all_goals intros
  all_goals rename_i r h
  all_goals simp only [cql_to_py, cqlToPySeq, cqlToPyPairs, cqlToPyTuple,
    cqlToPyUdt, Bind.bind, Except.bind] at h
  all_goals try (repeat' split at h)
  all_goals try simp only [*] at h
  all_goals try (repeat' split at h)
  all_goals try exact Except.noConfusion h
  all_goals try (injection h with h2; subst h2)
  all_goals try rfl
  all_goals simp_all [unsetFree, unsetFreeList, unsetFreePairs,
    unsetFreePairs_udtMap, List.map_cons, Bool.and_eq_true]


/-- A missing wire value decodes to Python `None` under every declared
type, `Custom` included (`src/utils.rs`, lines 348-350). -/
theorem cql_to_py_none (colName : String) (t : ColumnType) :
    cql_to_py colName t none = .ok .pyNone := by
  cases t <;> simp [cql_to_py]

/-- C9 (confirmed): for every declared `ColumnType`, decoding a missing wire
value (`None`) returns the host null representation without error, for every
declared type including `Custom`; and no decode of any wire value ever
produces the `Unset` sentinel anywhere in its output — `Unset` is
encode-only. -/
theorem c9_null_and_unset :
    (∀ (colName : String) (t : ColumnType),
      cql_to_py colName t none = .ok .pyNone) ∧
    (∀ (colName : String) (t : ColumnType) (cv : Option CqlValue)
      (r : PyValue), cql_to_py colName t cv = .ok r → unsetFree r = true) := by
  constructor
  · exact cql_to_py_none
  · intro colName
    exact cql_to_py_unsetFree colName

/-- C9, witness. -/
theorem c9_witness : unsetFree (.pyInt 5) = true :=
  c9_null_and_unset.2 "col" .int (some (.int 5)) (.pyInt 5)
    (by simp [cql_to_py, CqlValue.as_int])

/-! ### C1: encode/decode round trip

The round trip `cql_to_py ∘ driver ∘ py_to_value` fails beyond the claim's
single documented exception.  The sharpest failure is integer-only: the
`relativedelta` encode arm computes
`nanoseconds = microseconds * 1_000 + seconds * 1_000_000`
(`src/utils.rs`, lines 284-293) — the seconds term uses a
microseconds-per-second factor where nanoseconds-per-second (10^9) is
needed — so one second becomes one millisecond, with no truncation
involved.  (Besides this, timestamps round-trip only at millisecond
precision, `Float` columns narrow `f64` to `f32`, and collection elements
are encoded at default widths per C3.) -/

/-- C1, counterexample: `relativedelta(seconds=1)` encoded and decoded as a
`duration` column comes back as `relativedelta(microseconds=1000)` — one
millisecond, not one second.  No nanosecond-to-microsecond truncation is
involved (10^6 ns is exactly 1000 µs), so the documented lossy boundary
does not excuse it. -/
theorem c1_counterexample :
    roundTrip .duration (.pyRelativedelta 0 0 1 0) =
      .ok (.pyRelativedelta 0 0 0 1000) ∧
    PyValue.pyRelativedelta 0 0 0 1000 ≠ .pyRelativedelta 0 0 1 0 := by
  constructor
  · have h1 : py_to_value (.pyRelativedelta 0 0 1 0) (some .duration) =
        .ok (.duration 0 0 1000000) := by
      simp [py_to_value, fitsSigned, wrapI64]
    have h2 : dtoToWire .duration (.duration 0 0 1000000) =
        .ok (some (.duration 0 0 1000000)) := rfl
    have h3 : cql_to_py "col" .duration (some (.duration 0 0 1000000)) =
        .ok (.pyRelativedelta 0 0 0 1000) := by
      simp [cql_to_py, CqlValue.as_cql_duration, relativedeltaFromKwargs]
      decide
    simp [roundTrip, h1, h2, h3, Bind.bind, Except.bind]
  · simp

/-- Release-mode `i64` wrapping is the identity inside the `i64` range. -/
theorem wrapI64_small (n : Int) (h1 : -(2 ^ 63) ≤ n) (h2 : n < 2 ^ 63) :
    wrapI64 n = n := by
  unfold wrapI64
  have : (n + 2 ^ 63) % ((2 ^ 64 : Nat) : Int) = n + 2 ^ 63 := by
    apply Int.emod_eq_of_lt <;> push_cast <;> omega
  rw [this]
  ring

/-- The host values `v` for which the amended round-trip claim is stated at
declared type `t`: `None` under any type; primitives carried at the width
the declared type names (with the integer-range side conditions of the
extraction calls); python-date-range dates; `datetime.time` values;
durations with a zero seconds component (the seconds factor is wrong, see
`c1_counterexample`) and a normalized nonnegative microsecond component.
Timestamps are excluded: both their encode and decode pass through
floating-point seconds and round-trip only at millisecond precision;
`Float` columns are excluded for the `f64`-to-`f32` narrowing; composite
types are excluded per C3. -/
def reprOk : ColumnType → PyValue → Bool
  | _, .pyNone => true
  | .boolean, .pyBool _ => true
  | .tinyint, .pyInt n => decide (fitsSigned 8 n)
  | .smallint, .pyInt n => decide (fitsSigned 16 n)
  | .int, .pyInt n => decide (fitsSigned 32 n)
  | .bigint, .pyInt n => decide (fitsSigned 64 n)
  | .counter, .pyInt n => decide (fitsSigned 64 n)
  | .varint, .pyInt n => decide (fitsSigned 32 n)
  | .text, .pyStr _ => true
  | .ascii, .pyStr _ => true
  | .blob, .pyBytes _ => true
  | .uuid, .pyUuid _ => true
  | .timeuuid, .pyUuid _ => true
  | .double, .pyFloat _ => true
  | .inet, .pyInet _ _ => true
  | .date, .pyDate d => decide (-719162 ≤ d ∧ d ≤ 2932896)
  | .time, .pyTime t => decide (0 ≤ t ∧ t < 86400000000)
  | .decimal, .pyDecimal _ _ => true
  | .duration, .pyRelativedelta m d s micro =>
      decide (fitsSigned 32 m ∧ fitsSigned 32 d ∧ s = 0 ∧
        0 ≤ micro ∧ micro < 1000000)
  | _, _ => false


theorem dtoToWire_null (t : ColumnType) : dtoToWire t .null = .ok none := by
  cases t <;> rfl

/-- Collapse the (pure, guard-free) encode and wire steps of a round
trip, leaving the decode step. -/
theorem roundTrip_compute (t : ColumnType) (v : PyValue)
    (dto : ScyllaPyCQLDTO) (w : Option CqlValue)
    (h1 : py_to_value v (some t) = .ok dto)
    (h2 : dtoToWire t dto = .ok w) :
    roundTrip t v = cql_to_py "col" t w := by
  unfold roundTrip
  rw [h1]
  show dtoToWire t dto >>= _ = _
  rw [h2]
  rfl

theorem roundTrip_none (t : ColumnType) : roundTrip t .pyNone = .ok .pyNone := by
  rw [roundTrip_compute t .pyNone .null none rfl (dtoToWire_null t)]
  exact cql_to_py_none "col" t

theorem roundTrip_bool (b : Bool) :
    roundTrip .boolean (.pyBool b) = .ok (.pyBool b) := by
  rw [roundTrip_compute .boolean (.pyBool b) (.bool b) (some (.boolean b))
    rfl rfl]
  simp [cql_to_py, CqlValue.as_boolean]

theorem roundTrip_tinyint (n : Int) (h : fitsSigned 8 n) :
    roundTrip .tinyint (.pyInt n) = .ok (.pyInt n) := by
  rw [roundTrip_compute .tinyint (.pyInt n) (.tinyInt n) (some (.tinyint n))
    (by simp [py_to_value, h]) rfl]
  simp [cql_to_py, CqlValue.as_tinyint]

theorem roundTrip_smallint (n : Int) (h : fitsSigned 16 n) :
    roundTrip .smallint (.pyInt n) = .ok (.pyInt n) := by
  rw [roundTrip_compute .smallint (.pyInt n) (.smallInt n)
    (some (.smallint n)) (by simp [py_to_value, h]) rfl]
  simp [cql_to_py, CqlValue.as_smallint]

theorem roundTrip_int (n : Int) (h : fitsSigned 32 n) :
    roundTrip .int (.pyInt n) = .ok (.pyInt n) := by
  rw [roundTrip_compute .int (.pyInt n) (.int n) (some (.int n))
    (by simp [py_to_value, h]) rfl]
  simp [cql_to_py, CqlValue.as_int]

theorem roundTrip_bigint (n : Int) (h : fitsSigned 64 n) :
    roundTrip .bigint (.pyInt n) = .ok (.pyInt n) := by
  rw [roundTrip_compute .bigint (.pyInt n) (.bigInt n) (some (.bigint n))
    (by simp [py_to_value, h]) rfl]
  simp [cql_to_py, CqlValue.as_bigint]

theorem roundTrip_counter (n : Int) (h : fitsSigned 64 n) :
    roundTrip .counter (.pyInt n) = .ok (.pyInt n) := by
  rw [roundTrip_compute .counter (.pyInt n) (.counter n) (some (.counter n))
    (by simp [py_to_value, h]) rfl]
  simp [cql_to_py, CqlValue.as_counter]

theorem roundTrip_varint (n : Int) (h : fitsSigned 32 n) :
    roundTrip .varint (.pyInt n) = .ok (.pyInt n) := by
  rw [roundTrip_compute .varint (.pyInt n) (.int n) (some (.varint n))
    (by simp [py_to_value, h]) rfl]
  simp [cql_to_py]

theorem roundTrip_text (s : String) :
    roundTrip .text (.pyStr s) = .ok (.pyStr s) := by
  rw [roundTrip_compute .text (.pyStr s) (.string s) (some (.text s))
    rfl rfl]
  simp [cql_to_py, CqlValue.as_text]

theorem roundTrip_ascii (s : String) :
    roundTrip .ascii (.pyStr s) = .ok (.pyStr s) := by
  rw [roundTrip_compute .ascii (.pyStr s) (.string s) (some (.ascii s))
    rfl rfl]
  simp [cql_to_py, CqlValue.as_ascii]

theorem roundTrip_blob (b : List Nat) :
    roundTrip .blob (.pyBytes b) = .ok (.pyBytes b) := by
  rw [roundTrip_compute .blob (.pyBytes b) (.bytes b) (some (.blob b))
    rfl rfl]
  simp [cql_to_py, CqlValue.as_blob]

theorem roundTrip_uuid (u : Nat) :
    roundTrip .uuid (.pyUuid u) = .ok (.pyUuid u) := by
  rw [roundTrip_compute .uuid (.pyUuid u) (.uuid u) (some (.uuid u))
    rfl rfl]
  simp [cql_to_py, CqlValue.as_uuid]

theorem roundTrip_timeuuid (u : Nat) :
    roundTrip .timeuuid (.pyUuid u) = .ok (.pyUuid u) := by
  rw [roundTrip_compute .timeuuid (.pyUuid u) (.uuid u) (some (.timeuuid u))
    rfl rfl]
  simp [cql_to_py, CqlValue.as_timeuuid]

theorem roundTrip_double (bits : Nat) :
    roundTrip .double (.pyFloat bits) = .ok (.pyFloat bits) := by
  rw [roundTrip_compute .double (.pyFloat bits) (.double bits)
    (some (.double bits)) rfl rfl]
  simp [cql_to_py, CqlValue.as_double]

theorem roundTrip_inet (isV6 : Bool) (a : Nat) :
    roundTrip .inet (.pyInet isV6 a) = .ok (.pyInet isV6 a) := by
  rw [roundTrip_compute .inet (.pyInet isV6 a) (.inet isV6 a)
    (some (.inet isV6 a)) rfl rfl]
  simp [cql_to_py, CqlValue.as_inet]

theorem roundTrip_decimal (unscaled scale : Int) :
    roundTrip .decimal (.pyDecimal unscaled scale) =
      .ok (.pyDecimal unscaled scale) := by
  rw [roundTrip_compute .decimal (.pyDecimal unscaled scale)
    (.decimal unscaled scale) (some (.decimal unscaled scale)) rfl rfl]
  simp [cql_to_py]

theorem roundTrip_date (d : Int) (h1 : -719162 ≤ d) (h2 : d ≤ 2932896) :
    roundTrip .date (.pyDate d) = .ok (.pyDate d) := by
  rw [roundTrip_compute .date (.pyDate d) (.date d) (some (.date d))
    rfl rfl]
  have hg1 : timeCrateDateMin ≤ d := by
    unfold timeCrateDateMin
    omega
  have hg2 : d ≤ timeCrateDateMax := by
    unfold timeCrateDateMax
    omega
  simp [cql_to_py, CqlValue.as_date, hg1, hg2]

theorem roundTrip_time (mu : Int) (h1 : 0 ≤ mu) (h2 : mu < 86400000000) :
    roundTrip .time (.pyTime mu) = .ok (.pyTime mu) := by
  rw [roundTrip_compute .time (.pyTime mu) (.time mu)
    (some (.time (mu * 1000))) rfl rfl]
  have hg1 : (0 : Int) ≤ mu * 1000 := by omega
  have hg2 : mu * 1000 < 86400000000000 := by omega
  have hdiv : Int.tdiv (mu * 1000) 1000 = mu :=
    Int.mul_tdiv_cancel mu (by norm_num)
  simp [cql_to_py, CqlValue.as_time, hg1, hg2, hdiv]

theorem roundTrip_duration (m d mu : Int) (hm : fitsSigned 32 m)
    (hd : fitsSigned 32 d) (hmu0 : 0 ≤ mu) (hmu1 : mu < 1000000) :
    roundTrip .duration (.pyRelativedelta m d 0 mu) =
      .ok (.pyRelativedelta m d 0 mu) := by
  have hf64mu : fitsSigned 64 mu := by
    unfold fitsSigned
    push_cast
    omega
  have hf64z : fitsSigned 64 (0 : Int) := by
    unfold fitsSigned
    norm_num
  have hw1 : wrapI64 (mu * 1000) = mu * 1000 :=
    wrapI64_small _ (by omega) (by omega)
  have hw0 : wrapI64 0 = 0 := wrapI64_small 0 (by norm_num) (by norm_num)
  rw [roundTrip_compute .duration (.pyRelativedelta m d 0 mu)
    (.duration m d (mu * 1000)) (some (.duration m d (mu * 1000)))
    (by simp [py_to_value, hm, hd, hf64mu, hf64z, hw1, hw0]) rfl]
  have hdiv : Int.tdiv (mu * 1000) 1000 = mu :=
    Int.mul_tdiv_cancel mu (by norm_num)
  have hdiv2 : Int.tdiv mu 1000000 = 0 :=
    Int.tdiv_eq_zero_of_lt hmu0 hmu1
  have hmod : Int.tmod mu 1000000 = mu := by
    rw [Int.tmod_eq_emod hmu0 (by norm_num)]
    exact Int.emod_eq_of_lt hmu0 hmu1
  simp [cql_to_py, CqlValue.as_cql_duration, relativedeltaFromKwargs,
    hdiv, hdiv2, hmod]

/-- Variant of `roundTrip_none` whose value argument is matched through an
equation, so that misapplication fails on the constructor clash instead of
unfolding `roundTrip`. -/
theorem roundTrip_none_of (t : ColumnType) (v : PyValue)
    (hv : v = .pyNone) : roundTrip t v = .ok v := by
  subst hv
  exact roundTrip_none t

/-- C1 (amended): for every *primitive* `ColumnType` `t` in the `reprOk`
table and every host value `v` representable at `t` (`reprOk t v`),
decoding the result of encoding `v` guided by `t` reproduces `v` exactly.
Durations round-trip only with a zero seconds component — beyond the
claim's documented nanosecond-truncation boundary, the encoder's
seconds-to-nanoseconds factor is off by 10^3 (see `c1_counterexample`) —
and timestamps, `Float` columns and composite types are excluded (sub-ms
truncation, `f64`→`f32` narrowing, and the C3 element-context bug
respectively). -/
theorem c1_amended (t : ColumnType) (v : PyValue) (h : reprOk t v = true) :
    roundTrip t v = .ok v := by
  cases t <;> cases v
  all_goals try (exact Bool.noConfusion h)
  all_goals try (exact roundTrip_none_of _ _ rfl)
  all_goals first
    | exact roundTrip_bool _
    | exact roundTrip_text _
    | exact roundTrip_ascii _
    | exact roundTrip_blob _
    | exact roundTrip_uuid _
    | exact roundTrip_timeuuid _
    | exact roundTrip_double _
    | exact roundTrip_inet _ _
    | exact roundTrip_decimal _ _
    | exact roundTrip_tinyint _ (of_decide_eq_true h)
    | exact roundTrip_smallint _ (of_decide_eq_true h)
    | exact roundTrip_int _ (of_decide_eq_true h)
    | exact roundTrip_bigint _ (of_decide_eq_true h)
    | exact roundTrip_counter _ (of_decide_eq_true h)
    | exact roundTrip_varint _ (of_decide_eq_true h)
    | exact roundTrip_date _ (of_decide_eq_true h).1 (of_decide_eq_true h).2
    | exact roundTrip_time _ (of_decide_eq_true h).1 (of_decide_eq_true h).2
    | (obtain ⟨hm, hd, hs, hmu0, hmu1⟩ := of_decide_eq_true h
       subst hs
       exact roundTrip_duration _ _ _ hm hd hmu0 hmu1)

/-- C1, witness for the amended theorem. -/
theorem c1_witness : roundTrip .bigint (.pyInt 7) = .ok (.pyInt 7) :=
  c1_amended .bigint (.pyInt 7) (by decide)

end Scyllapy
